import Mathlib

/-!
Verification of the DaCHS publishing-registry core (capabilities.py,
builders.py, tableset.py, publication.py) against its specification.

The development shallowly embeds the registry's document construction:
XML trees become an inductive `Stan` type, the hierarchical meta source
becomes association lists of `MetaValue`s, process configuration becomes
an explicit `Config` record, and every fallible operation returns
`Except`.  External collaborators (the meta store lookup itself, the
stanxml serializer, database reads) are modelled at their consumed
interface, as the spec scopes them.
-/

namespace DaCHS

/-- A typed document node (the stanxml contract consumed by the registry
code): an element carries its tag (namespace prefix and local name joined
as "vr:capability"), an attribute list in which absent (None-valued)
attributes are simply omitted, and an ordered child list; text content is
a leaf.  Empty-node pruning happens in the external serializer and is not
part of this constructed tree. -/
inductive Stan where
  | elem (tag : String) (attrs : List (String × String)) (children : List Stan)
  | text (s : String)
deriving Repr

/-- Tag of a node (text nodes have none). -/
def Stan.tagOf : Stan → String
  | .elem t _ _ => t
  | .text _ => ""

/-- Attribute list of a node. -/
def Stan.attrsOf : Stan → List (String × String)
  | .elem _ a _ => a
  | .text _ => []

/-- Child list of a node. -/
def Stan.childrenOf : Stan → List Stan
  | .elem _ _ c => c
  | .text _ => []

/-- Stanxml child indexing `node[more]`: appends children to an element. -/
def stanAppend : Stan → List Stan → Stan
  | .elem t a c, more => .elem t a (c ++ more)
  | .text s, _ => .text s

/-- Stanxml keyword call `node(attr=value)`: sets one attribute,
replacing an earlier binding of the same name. -/
def stanSetAttr : Stan → String → String → Stan
  | .elem t a c, n, v => .elem t (a.filter (fun p => p.1 != n) ++ [(n, v)]) c
  | .text s, _, _ => .text s

/-- Looks up an attribute value on an element. -/
def Stan.attr (s : Stan) (n : String) : Option String :=
  (s.attrsOf.filter (fun p => p.1 == n)).head?.map (·.2)

/-- An optional attribute: omitted entirely when the value is absent,
mirroring stanxml's treatment of None-valued attributes. -/
def optAttr (n : String) : Option String → List (String × String)
  | none => []
  | some v => [(n, v)]

/-- Optional text content: a meta value that is absent contributes no
text child (the element stays empty). -/
def optText : Option String → List Stan
  | none => []
  | some s => [Stan.text s]

/-- First-position lookup in an association list. -/
def alookup {α : Type} (k : String) : List (String × α) → Option α
  | [] => none
  | (k', v) :: rest => if k' = k then some v else alookup k rest

/-- One value of the hierarchical, multi-valued meta source (spec 4.1, an
external consumed contract): a content string, named side-attributes
(such as ivoId or role), and child meta items keyed by name. -/
inductive MetaValue where
  | node (content : String) (attrs : List (String × String))
      (children : List (String × MetaValue))
deriving Repr

/-- Content string of a meta value. -/
def MetaValue.content : MetaValue → String
  | .node c _ _ => c

/-- Side-attributes of a meta value. -/
def MetaValue.sideAttrs : MetaValue → List (String × String)
  | .node _ a _ => a

/-- Child meta items of a meta value. -/
def MetaValue.childMeta : MetaValue → List (String × MetaValue)
  | .node _ _ c => c

/-- One named side-attribute of a meta value. -/
def MetaValue.sideAttr (v : MetaValue) (n : String) : Option String :=
  (v.sideAttrs.filter (fun p => p.1 == n)).head?.map (·.2)

/-- A plain meta value with no side-attributes and no children. -/
def mv (c : String) : MetaValue := .node c [] []

/-- A block of meta items: the carrier-level view of the meta source.
Dotted keys are kept atomic at this level. -/
abbrev MetaBlock := List (String × MetaValue)

/-- All values of a key, in source order (iterMeta). -/
def metaAll (mb : MetaBlock) (key : String) : List MetaValue :=
  (mb.filter (fun p => p.1 == key)).map (·.2)

/-- The contents of all values of a key. -/
def metaContents (mb : MetaBlock) (key : String) : List String :=
  (metaAll mb key).map MetaValue.content

/-- base.getMetaText without propagation: the first value of the key. -/
def getMetaText (mb : MetaBlock) (key : String) : Option String :=
  ((metaAll mb key).head?).map MetaValue.content

/-- base.getMetaText with propagate=True: the carrier's own block first,
then the broader containing scope (spec 4.1 propagation). -/
def getMetaTextProp (mb parent : MetaBlock) (key : String) : Option String :=
  (getMetaText mb key).orElse (fun _ => getMetaText parent key)

/-- One input parameter of a service, as handed over by the external
service machinery (service.getInputKeysFor): the column-level fields the
registry code reads, plus the external base.sqltypeToVOTable conversion
of its SQL type carried as data (votType, votLength). -/
structure InputKey where
  name : String
  description : String
  unit : String
  ucd : String
  type : String
  std : Bool
  votType : String
  votLength : Option String
deriving Repr, DecidableEq

/-- One supported TAP query language, as reported by the external
tap.getSupportedLanguages: name, description and (version, ivoid) pairs. -/
structure TapLanguage where
  langName : String
  langDescription : String
  versions : List (String × String)
deriving Repr, DecidableEq

/-- One supported TAP output format, as reported by the external
tap.getSupportedOutputFormats: mime type, aliases and an optional ivoid. -/
structure TapFormat where
  mime : String
  aliases : List String
  ivoId : Option String
deriving Repr, DecidableEq

/-- Process-wide, read-only configuration and external lookup data
consumed by the registry code: base.getConfig items, the vanity-name map
(long path to short alias), and the data the TAP capability maker pulls
from the TAP_SCHEMA database and the UDF/language/format registries
(external reads, carried here as a snapshot). Config string fields hold
the str()-rendered values the code splices into documents. -/
structure Config where
  vanityLongToShort : List (String × String)
  registerAlternative : Bool
  future : List String
  ivoaDalHardLimit : String
  ivoaDalDefaultLimit : Nat
  ivoaOaipmhPageSize : String
  asyncDefaultLifetime : String
  asyncDefaultExecTime : String
  asyncDefaultMAXREC : String
  asyncHardMAXREC : String
  webMaxUploadSize : String
  webSitename : String
  tapSupportedModels : List (String × String)
  tapUdfs : List (String × String)
  tapLanguages : List TapLanguage
  tapOutputFormats : List TapFormat
  tapUploadMethods : List String
deriving Repr

/-- A Publication: one binding of a resource to a publishing mechanism
(spec data model).  Carries the mechanism key (render), the auxiliary
flag, set-name memberships, its own meta block, the meta of its parent
resource, and the external per-renderer data the capability code reads:
the effective publication.service meta (the parent's when no service
override is set), the URL builder of the overriding publication.service
when one is set, the input keys the service declares for the renderer
(none when the carrier has no getInputKeysFor), and the renderer's
parameter style (svcs.getRenderer(render)). -/
structure Publication where
  render : String
  auxiliary : Bool
  sets : List String
  meta : MetaBlock
  parentMeta : MetaBlock
  serviceMeta : MetaBlock
  serviceGetURL : Option (String → String)
  inputKeys : Option (List InputKey)
  paramStyle : String

mutual

/-- Boolean equality on document nodes (structural). -/
def Stan.beq : Stan → Stan → Bool
  | .text s, .text t => s == t
  | .elem t a c, .elem t' a' c' => t == t' && a == a' && Stan.beqList c c'
  | _, _ => false

/-- Boolean equality on child lists (structural). -/
def Stan.beqList : List Stan → List Stan → Bool
  | [], [] => true
  | x :: xs, y :: ys => Stan.beq x y && Stan.beqList xs ys
  | _, _ => false

end

/-- The six fields of the Python urlparse result tuple. -/
structure URLParts where
  scheme : String
  netloc : String
  path : String
  params : String
  query : String
  fragment : String
deriving Repr, DecidableEq

/-- Splits a character list at the first occurrence of a separator. -/
def splitAtFirst (sep : Char) : List Char → Option (List Char × List Char)
  | [] => none
  | c :: rest =>
      if c = sep then some ([], rest)
      else match splitAtFirst sep rest with
        | some (a, b) => some (c :: a, b)
        | none => none

/-- Takes the netloc: everything up to the first of '/', '?' or '#'. -/
def splitNetloc : List Char → List Char × List Char
  | [] => ([], [])
  | c :: rest =>
      if c = '/' ∨ c = '?' ∨ c = '#' then ([], c :: rest)
      else
        let (a, b) := splitNetloc rest
        (c :: a, b)

/-- Splits the path's last slash-separated segment at its first
semicolon into (path, params), as Python urlparse does; a path whose
last segment has no semicolon keeps empty params. -/
def splitParams (path : List Char) : List Char × List Char :=
  if path.contains '/' then
    match splitAtFirst '/' path.reverse with
    | some (revSeg, revRest) =>
        (match splitAtFirst ';' revSeg.reverse with
         | some (a, b) => (revRest.reverse ++ '/' :: a, b)
         | none => (path, []))
    | none => (path, [])
  else
    match splitAtFirst ';' path with
    | some (a, b) => (a, b)
    | none => (path, [])

/-- Model of Python urllib.parse.urlparse for the URL shapes the
registry handles: an optional scheme before "://" (a scheme with no
slashes leaves the netloc empty), a netloc up to the first '/', '?' or
'#', then fragment split at the first '#', query at the first '?', and
params split off the path's last segment at a ';'. -/
def urlparseModel (s : String) : URLParts :=
  let cs := s.data
  let (scheme, afterScheme) :=
    match splitAtFirst ':' cs with
    | some (a, b) => (a, b)
    | none => ([], cs)
  let (netloc, rest) :=
    if afterScheme.take 2 = ['/', '/'] then splitNetloc (afterScheme.drop 2)
    else ([], afterScheme)
  let (beforeFrag, frag) :=
    match splitAtFirst '#' rest with
    | some (a, b) => (a, b)
    | none => (rest, [])
  let (beforeQuery, query) :=
    match splitAtFirst '?' beforeFrag with
    | some (a, b) => (a, b)
    | none => (beforeFrag, [])
  let (path, params) := splitParams beforeQuery
  { scheme := String.mk scheme, netloc := String.mk netloc,
    path := String.mk path, params := String.mk params,
    query := String.mk query, fragment := String.mk frag }

/-- Model of Python urllib.parse.urlunsplit on a five-field tuple.  The
source calls it as urlunsplit(parts[:2] + (shortPath,) + parts[3:5]),
slicing a six-field urlparse tuple, so the params field arrives in the
query slot and the query field in the fragment slot; this function just
reproduces urlunsplit itself on whatever five fields it is given. -/
def urlunsplitModel (scheme netloc url query fragment : String) : String :=
  let url :=
    if netloc ≠ "" ∨ url.data.take 2 = ['/', '/'] then
      "//" ++ netloc ++ (if url ≠ "" ∧ url.data.take 1 ≠ ['/'] then "/" ++ url else url)
    else url
  let url := if scheme ≠ "" then scheme ++ ":" ++ url else url
  let url := if query ≠ "" then url ++ "?" ++ query else url
  if fragment ≠ "" then url ++ "#" ++ fragment else url

/-- Modelled from the spec: osinter.switchProtocol (external helper from
gavo.base) produces the protocol-switch mirror by exchanging the http and
https schemes, and fails (ValueError) on a URL it cannot switch.
Character-level worker. -/
def switchProtocolChars : List Char → Except Unit (List Char)
  | 'h' :: 't' :: 't' :: 'p' :: 's' :: ':' :: '/' :: '/' :: rest =>
      .ok ('h' :: 't' :: 't' :: 'p' :: ':' :: '/' :: '/' :: rest)
  | 'h' :: 't' :: 't' :: 'p' :: ':' :: '/' :: '/' :: rest =>
      .ok ('h' :: 't' :: 't' :: 'p' :: 's' :: ':' :: '/' :: '/' :: rest)
  | _ => .error ()

/-- Modelled from the spec: the protocol-switch as a String function. -/
def switchProtocol (url : String) : Except Unit String :=
  (switchProtocolChars url.data).map String.mk

/-- Failure modes of interface construction: a missing accessURL meta
(the source would crash in urlparse(None)), or the NotImplementedError
the DALI interface maker raises for non-TAP renderers. -/
inductive IfError where
  | missingAccessURL
  | notImplemented (msg : String)
deriving Repr, DecidableEq

/-- The short-alias rewrite of InterfaceMaker._makeInterface: when the
path (less its leading slash) is a key of the vanity long-to-short map,
the URL is rebuilt with the short name, re-appending a trailing '?' or
'&' of the original URL. -/
def rewriteAccessURL (cfg : Config) (accessURL : String) : String :=
  let parts := urlparseModel accessURL
  let localpart := parts.path.drop 1
  match alookup localpart cfg.vanityLongToShort with
  | some shortName =>
      let appendChar :=
        if accessURL.endsWith "?" ∨ accessURL.endsWith "&" then accessURL.takeRight 1
        else ""
      urlunsplitModel parts.scheme parts.netloc shortName parts.params parts.query
        ++ appendChar
  | none => accessURL

/-- The children the base InterfaceMaker._makeInterface gives every
interface: the (rewritten) access URL, the security method, the mirror
URLs whose content differs from the access URL, and, when the
registerAlternative config is on and the protocol switch succeeds, one
more mirror URL with the switched protocol. -/
def interfaceBaseChildren (cfg : Config) (pub : Publication) (accessURL : String) :
    List Stan :=
  [Stan.elem "vr:accessURL" (optAttr "use" (getMetaText pub.meta "urlUse"))
      [Stan.text accessURL],
   Stan.elem "vr:securityMethod" (optAttr "standardId" (getMetaText pub.meta "securityId")) []]
  ++ ((metaContents pub.meta "mirrorURL").filter (fun v => v != accessURL)).map
       (fun v => Stan.elem "vr:mirrorURL" [] [Stan.text v])
  ++ (if cfg.registerAlternative then
        match switchProtocol accessURL with
        | .ok alt => [Stan.elem "vr:mirrorURL" [] [Stan.text alt]]
        | .error _ => []
      else [])

/-- InterfaceMaker._makeInterface for a given interface element class
(tag plus its class-level attributes). -/
def interfaceBase (tag : String) (attrs : List (String × String)) (cfg : Config)
    (pub : Publication) : Except IfError Stan :=
  match getMetaText pub.meta "accessURL" with
  | none => .error .missingAccessURL
  | some a0 =>
      .ok (Stan.elem tag attrs (interfaceBaseChildren cfg pub (rewriteAccessURL cfg a0)))

/-- The _VOTABLE_TO_SIMPLE_TYPE_MAP lookup with its "char" default. -/
def votableToSimpleType (t : String) : String :=
  if t = "char" ∨ t = "bytea" ∨ t = "unicodeChar" then "char"
  else if t = "short" ∨ t = "int" ∨ t = "long" then "integer"
  else if t = "float" ∨ t = "double" then "real"
  else "char"

/-- tableset.simpleDataTypeFactory on the carried sqltypeToVOTable
output: a length of '1' becomes no arraysize. -/
def simpleDataTypeFactory (k : InputKey) : Stan :=
  let length := if k.votLength = some "1" then none else k.votLength
  Stan.elem "vs:dataType" ([("xsi:type", "vs:SimpleDataType")] ++ optAttr "arraysize" length)
    [Stan.text (votableToSimpleType k.votType)]

/-- getInputParamFromColumn: a vs:param with the column fields and the
simple data type, its std attribute from the column's std flag. -/
def getInputParamFromColumn (k : InputKey) : Stan :=
  Stan.elem "vs:param" [("std", if k.std then "true" else "false")]
    [Stan.elem "vs:name" [] [Stan.text k.name],
     Stan.elem "vs:description" [] [Stan.text k.description],
     Stan.elem "vs:unit" [] [Stan.text k.unit],
     Stan.elem "vs:ucd" [] [Stan.text k.ucd],
     simpleDataTypeFactory k]

/-- Modelled from the spec: dali.getUploadKeyFor (external protocol
helper) replaces a file-typed input key by its DALI upload equivalent;
only the fact that it yields some replacement key matters here. -/
def getUploadKeyFor (k : InputKey) : InputKey :=
  { k with name := "UPLOAD", type := "text" }

/-- getInputParams: one vs:param per input key the service declares for
the renderer, with the DALI upload rewrite for file-typed parameters;
nothing when the carrier has no getInputKeysFor (published tables). -/
def getInputParams (pub : Publication) : List Stan :=
  match pub.inputKeys with
  | none => []
  | some keys =>
      keys.map (fun k =>
        getInputParamFromColumn
          (if k.type = "file" ∧ pub.paramStyle = "dali" then getUploadKeyFor k else k))

/-- TAP_VERSION, the external constant from gavo.protocols.tap the TAP
interface maker stamps on its interface element. -/
def TAP_VERSION : String := "1.1"

/-- The concrete InterfaceMaker classes of capabilities.py, one
constructor per class that an interface can be built with. -/
inductive IMaker where
  | vosiAv | vosiCap | vosiTM | daliI | withParams
  | siap | siap2 | scs | ssap | slap | datalink | sodaSync | sodaAsync
  | edition | tapI | examples | soap | oaiHTTP
  | form | qp | docform | fixedI | staticI | customI | volatile | externalI | getProduct
deriving Repr, DecidableEq

/-- InterfaceWithParams._makeInterface for a given interface element
class: the base interface plus queryType, resultType (both looked up
without propagation) and the input parameters. -/
def runIWithParams (tag : String) (attrs : List (String × String)) (cfg : Config)
    (pub : Publication) : Except IfError Stan := do
  let base ← interfaceBase tag attrs cfg pub
  .ok (stanAppend base
    ([Stan.elem "vs:queryType" [] (optText (getMetaText pub.meta "requestMethod")),
      Stan.elem "vs:resultType" [] (optText (getMetaText pub.meta "resultType"))]
     ++ getInputParams pub))

/-- The four fixed endpoint children of the experimental DALI interface. -/
def daliEndpoints : List Stan :=
  [Stan.elem "dachs:endpoint" [] [Stan.elem "tr:name" [] [Stan.text "sync"]],
   Stan.elem "dachs:endpoint" []
     [Stan.elem "tr:name" [] [Stan.text "async"],
      Stan.elem "dachs:meta" [("property", "http://dc.g-vo.org/static/tap-plan")]
        [Stan.text "dachs"]],
   Stan.elem "dachs:endpoint" [] [Stan.elem "tr:name" [] [Stan.text "tables"]],
   Stan.elem "dachs:endpoint" [] [Stan.elem "tr:name" [] [Stan.text "examples"]]]

/-- Runs one interface maker on a publication, producing its interface
element.  Each case reproduces the corresponding _makeInterface
override of capabilities.py on top of the shared base; element tags and
class-level attributes follow the stanxml classes of model.py. -/
def runIMaker (m : IMaker) (cfg : Config) (pub : Publication) : Except IfError Stan :=
  match m with
  | .vosiAv | .vosiCap | .vosiTM =>
      interfaceBase "vr:interface" [("xsi:type", "vs:ParamHTTP"), ("role", "std")] cfg pub
  | .daliI => do
      let base ← interfaceBase "dachs:interface"
        [("xsi:type", "dachs:DALIInterface"), ("role", "std")] cfg pub
      let base := stanSetAttr base "version" "1.1"
      if pub.render ≠ "dali" then
        .error (.notImplemented "Do not know how to make DALIInterfaces for anything but TAP yet.")
      else
        .ok (stanAppend base daliEndpoints)
  | .withParams => runIWithParams "vr:interface" [("xsi:type", "vs:ParamHTTP")] cfg pub
  | .siap | .siap2 =>
      runIWithParams "sia:interface" [("xsi:type", "vs:ParamHTTP"), ("role", "std")] cfg pub
  | .scs =>
      runIWithParams "cs:interface" [("xsi:type", "vs:ParamHTTP"), ("role", "std")] cfg pub
  | .ssap =>
      runIWithParams "ssap:interface" [("xsi:type", "vs:ParamHTTP"), ("role", "std")] cfg pub
  | .slap =>
      runIWithParams "vr:interface" [("xsi:type", "vs:ParamHTTP"), ("role", "std")] cfg pub
  | .datalink =>
      runIWithParams "vr:interface" [("xsi:type", "vs:ParamHTTP"), ("role", "std")] cfg pub
  | .sodaSync | .sodaAsync =>
      interfaceBase "vr:interface" [("xsi:type", "vs:ParamHTTP"), ("role", "std")] cfg pub
  | .edition =>
      (interfaceBase "vr:interface" [("xsi:type", "vr:WebBrowser")] cfg pub).map
        (fun s => stanSetAttr s "role" "rendered")
  | .tapI =>
      (interfaceBase "vr:interface" [("xsi:type", "vs:ParamHTTP"), ("role", "std")] cfg pub).map
        (fun s => stanSetAttr s "version" TAP_VERSION)
  | .examples =>
      interfaceBase "vr:interface" [("xsi:type", "vr:WebBrowser")] cfg pub
  | .soap => do
      let base ← interfaceBase "vr:interface" [("xsi:type", "vr:WebService")] cfg pub
      match getMetaText pub.meta "accessURL" with
      | none => .error .missingAccessURL
      | some a0 => .ok (stanAppend base [Stan.elem "vr:wsdlURL" [] [Stan.text (a0 ++ "?wsdl")]])
  | .oaiHTTP =>
      (interfaceBase "vr:interface" [("xsi:type", "vg:OAIHTTP")] cfg pub).map
        (fun s => stanSetAttr s "role" "std")
  | .form | .qp | .docform | .fixedI | .staticI | .customI | .volatile | .externalI
  | .getProduct =>
      interfaceBase "vr:interface" [("xsi:type", "vr:WebBrowser")] cfg pub

/-- The interface resolver table built by buildClassResolver over the
InterfaceMaker classes, keyed by their renderer class attribute (the
DALI interface maker declares no renderer and is absent). -/
def interfaceMakerAssoc : List (String × IMaker) :=
  [("availability", .vosiAv), ("capabilities", .vosiCap), ("tableMetadata", .vosiTM),
   ("siap.xml", .siap), ("siap2.xml", .siap2), ("scs.xml", .scs), ("ssap.xml", .ssap),
   ("slap.xml", .slap), ("dlmeta", .datalink), ("dlget", .sodaSync), ("dlasync", .sodaAsync),
   ("edition", .edition), ("dali", .tapI), ("examples", .examples), ("soap", .soap),
   ("pubreg.xml", .oaiHTTP), ("form", .form), ("qp", .qp), ("docform", .docform),
   ("fixed", .fixedI), ("static", .staticI), ("custom", .customI), ("volatile", .volatile),
   ("external", .externalI), ("get", .getProduct)]

/-- _getInterfaceMaker: the flat interface resolver with the
InterfaceWithParams instance as its designated default. -/
def interfaceMakerFor (render : String) : IMaker :=
  (alookup render interfaceMakerAssoc).getD .withParams

/-- Failure modes of capability and record construction: failed
interface construction, a mandatory meta key missing (NoMetaKey), an
unresolved key (KeyError), a ReportableError, the SkipThis signal, and a
structure-validation failure. -/
inductive RegError where
  | iface (e : IfError)
  | noMetaKey (key : String)
  | keyError (key : String)
  | reportable (msg : String)
  | skipThis (msg : String)
  | validation (msg : String)
  | typeErr (what : String)
deriving Repr, DecidableEq

/-- The concrete CapabilityMaker classes of capabilities.py. -/
inductive CMaker where
  | api | sia | sia2 | scsC | ssa | slapC | tap | registry
  | vosiAvC | vosiCapC | vosiTMC | examplesC | hips
  | soapC | formC | qpC | externalC | staticC | volatileC | customC
  | jpeg | fixedC | docformC | product
  | datalinkC | sodaSyncC | sodaAsyncC | editionC
deriving Repr, DecidableEq

/-- The capability resolver table built by buildClassResolver over the
CapabilityMaker classes, keyed by renderer; unlike the interface
resolver it has no default. -/
def capabilityMakerAssoc : List (String × CMaker) :=
  [("api", .api), ("siap.xml", .sia), ("siap2.xml", .sia2), ("scs.xml", .scsC),
   ("ssap.xml", .ssa), ("slap.xml", .slapC), ("dali", .tap), ("pubreg.xml", .registry),
   ("availability", .vosiAvC), ("capabilities", .vosiCapC), ("tableMetadata", .vosiTMC),
   ("examples", .examplesC), ("hips", .hips), ("soap", .soapC), ("form", .formC),
   ("qp", .qpC), ("external", .externalC), ("static", .staticC), ("volatile", .volatileC),
   ("custom", .customC), ("img.jpeg", .jpeg), ("fixed", .fixedC), ("docform", .docformC),
   ("get", .product), ("dlmeta", .datalinkC), ("dlget", .sodaSyncC),
   ("dlasync", .sodaAsyncC), ("edition", .editionC)]

/-- The auxiliaryId class attribute of each capability maker: the fixed
auxiliary standard identifier, declared only by the SIA, SIAv2 and TAP
makers. -/
def auxiliaryIdOf : CMaker → Option String
  | .sia => some "ivo://ivoa.net/std/SIA#aux"
  | .sia2 => some "ivo://ivoa.net/std/SIA#query-aux-2.0"
  | .tap => some "ivo://ivoa.net/std/TAP#aux"
  | _ => none

/-- CapabilityMaker._getInterfaceElement: auxiliary TAP publications get
the classic TAP (ParamHTTP) interface instead of the resolved one. -/
def getInterfaceElement (cfg : Config) (pub : Publication) : Except IfError Stan :=
  if pub.auxiliary ∧ pub.render = "dali" then runIMaker .tapI cfg pub
  else runIMaker (interfaceMakerFor pub.render) cfg pub

/-- The capability element skeleton shared by all makers: description
(no propagation) followed by the interface element(s). -/
def makeCapabilityBaseWith (tag : String) (attrs : List (String × String))
    (pub : Publication) (ifaces : List Stan) : Stan :=
  Stan.elem tag attrs
    (Stan.elem "vr:description" [] (optText (getMetaText pub.meta "description")) :: ifaces)

/-- CapabilityMaker._makeCapability for a given capability element
class: description plus the interface from _getInterfaceElement. -/
def makeCapabilityBase (tag : String) (attrs : List (String × String)) (cfg : Config)
    (pub : Publication) : Except RegError Stan :=
  match getInterfaceElement cfg pub with
  | .error e => .error (.iface e)
  | .ok i => .ok (makeCapabilityBaseWith tag attrs pub [i])

/-- The protocol-specific children of the SIA capability, read from the
parent service's meta; sia.type is mandatory (raiseOnFail). -/
def siaCapabilityChildren (cfg : Config) (pub : Publication) : Except RegError (List Stan) :=
  match getMetaText pub.parentMeta "sia.type" with
  | none => .error (.noMetaKey "sia.type")
  | some siaType => .ok
      [Stan.elem "sia:imageServiceType" [] [Stan.text siaType],
       Stan.elem "sia:maxQueryRegionSize" []
         [Stan.elem "sia:long" [] (optText (getMetaText pub.parentMeta "sia.maxQueryRegionSize.long")),
          Stan.elem "sia:lat" [] (optText (getMetaText pub.parentMeta "sia.maxQueryRegionSize.lat"))],
       Stan.elem "sia:maxImageExtent" []
         [Stan.elem "sia:long" [] (optText (getMetaText pub.parentMeta "sia.maxImageExtent.long")),
          Stan.elem "sia:lat" [] (optText (getMetaText pub.parentMeta "sia.maxImageExtent.lat"))],
       Stan.elem "sia:maxImageSize" [] (optText (getMetaText pub.parentMeta "sia.maxImageSize")),
       Stan.elem "sia:maxFileSize" [] (optText (getMetaText pub.parentMeta "sia.maxFileSize")),
       Stan.elem "sia:maxRecords" []
         [Stan.text ((getMetaText pub.parentMeta "sia.maxRecords").getD cfg.ivoaDalHardLimit)],
       Stan.elem "sia:testQuery" []
         [Stan.elem "sia:pos" []
            [Stan.elem "sia:long" [] (optText (getMetaText pub.parentMeta "testQuery.pos.ra")),
             Stan.elem "sia:lat" [] (optText (getMetaText pub.parentMeta "testQuery.pos.dec"))],
          Stan.elem "sia:size" []
            [Stan.elem "sia:long" [] (optText (getMetaText pub.parentMeta "testQuery.size.ra")),
             Stan.elem "sia:lat" [] (optText (getMetaText pub.parentMeta "testQuery.size.dec"))]]]

/-- The protocol-specific children of the cone-search capability, read
from publication.service; testQuery.ra and testQuery.dec are mandatory. -/
def scsCapabilityChildren (cfg : Config) (pub : Publication) : Except RegError (List Stan) :=
  match getMetaText pub.serviceMeta "testQuery.ra" with
  | none => .error (.noMetaKey "testQuery.ra")
  | some ra =>
    match getMetaText pub.serviceMeta "testQuery.dec" with
    | none => .error (.noMetaKey "testQuery.dec")
    | some dec => .ok
        [Stan.elem "cs:maxSR" [] [Stan.text ((getMetaText pub.serviceMeta "maxSR").getD "180")],
         Stan.elem "cs:maxRecords" [] [Stan.text (toString (cfg.ivoaDalDefaultLimit * 10))],
         Stan.elem "cs:verbosity" [] [Stan.text "true"],
         Stan.elem "cs:testQuery" []
           [Stan.elem "cs:ra" [] [Stan.text ra],
            Stan.elem "cs:dec" [] [Stan.text dec],
            Stan.elem "cs:sr" [] [Stan.text ((getMetaText pub.serviceMeta "testQuery.sr").getD "0.001")]]]

/-- The protocol-specific children of the SSA capability; dataSource and
the test query are mandatory. -/
def ssaCapabilityChildren (cfg : Config) (pub : Publication) : Except RegError (List Stan) :=
  match getMetaText pub.parentMeta "ssap.dataSource" with
  | none => .error (.noMetaKey "ssap.dataSource")
  | some dataSource =>
    match getMetaText pub.parentMeta "ssap.testQuery" with
    | none => .error (.noMetaKey "ssap.testQuery")
    | some testQuery => .ok
        [Stan.elem "ssap:complianceLevel" []
           [Stan.text ((getMetaText pub.parentMeta "ssap.complianceLevel").getD "minimal")],
         Stan.elem "ssap:dataSource" [] [Stan.text dataSource],
         Stan.elem "ssap:creationType" []
           [Stan.text ((getMetaText pub.parentMeta "ssap.creationType").getD "archival")],
         Stan.elem "ssap:supportedFrame" [] [Stan.text "ICRS"],
         Stan.elem "ssap:maxSearchRadius" [] [Stan.text "90"],
         Stan.elem "ssap:maxRecords" [] [Stan.text cfg.ivoaDalHardLimit],
         Stan.elem "ssap:defaultMaxRecords" [] [Stan.text (toString cfg.ivoaDalDefaultLimit)],
         Stan.elem "ssap:maxAperture" [] [Stan.text "90"],
         Stan.elem "ssap:testQuery" []
           [Stan.elem "ssap:queryDataCmd" [] [Stan.text testQuery]]]

/-- The protocol-specific children of the SLAP capability (which reuses
the ssap dataSource and testQuery elements). -/
def slapCapabilityChildren (pub : Publication) : Except RegError (List Stan) :=
  match getMetaText pub.parentMeta "slap.dataSource" with
  | none => .error (.noMetaKey "slap.dataSource")
  | some dataSource =>
    match getMetaText pub.parentMeta "slap.testQuery" with
    | none => .error (.noMetaKey "slap.testQuery")
    | some testQuery => .ok
        [Stan.elem "slap:complianceLevel" []
           [Stan.text ((getMetaText pub.parentMeta "slap.complianceLevel").getD "full")],
         Stan.elem "ssap:dataSource" [] [Stan.text dataSource],
         Stan.elem "ssap:testQuery" []
           [Stan.elem "ssap:queryDataCmd" [] [Stan.text testQuery]]]

/-- Stable insertion of a (signature, doc) pair by signature. -/
def insertBySignature (x : String × String) :
    List (String × String) → List (String × String)
  | [] => [x]
  | y :: ys => if x.1 ≤ y.1 then x :: y :: ys else y :: insertBySignature x ys

/-- The stable sort by signature the TAP maker applies to the UDF list. -/
def sortBySignature : List (String × String) → List (String × String)
  | [] => []
  | x :: xs => insertBySignature x (sortBySignature xs)

/-- A tr:feature holding just a form. -/
def tapFormFeature (f : String) : Stan :=
  Stan.elem "tr:feature" [] [Stan.elem "tr:form" [] [Stan.text f]]

/-- A tr:languageFeatures block of a given type. -/
def tapLanguageFeatures (t : String) (kids : List Stan) : Stan :=
  Stan.elem "tr:languageFeatures" [("type", t)] kids

/-- A tr:feature holding a form and a description. -/
def tapDescribedFeature (f d : String) : Stan :=
  Stan.elem "tr:feature" []
    [Stan.elem "tr:form" [] [Stan.text f], Stan.elem "tr:description" [] [Stan.text d]]

/-- The fixed extra-adql-keywords features of the TAP capability (the
quotation marks of the source prose are flattened to plain words). -/
def tapExtraKeywordFeatures : List Stan :=
  [tapDescribedFeature "TABLESAMPLE"
     ("Written after a table reference, TABLESAMPLE(10) will make the database only use"
      ++ " 10% of the rows; these are somewhat random in that the system will use random"
      ++ " blocks.  This should be good enough when just testing queries (and much better"
      ++ " than using TOP n)."),
   tapDescribedFeature "MOC"
     ("A geometry function creating MOCs.  It either takes a string argument with an ASCII"
      ++ " MOC (4/13 17-18 8/3002), or an order and another geometry."),
   tapDescribedFeature "COALESCE"
     "This is the standard SQL COALESCE for providing defaults in case of NULL values.",
   tapDescribedFeature "VECTORMATH"
     ("You can compute with vectors here. See"
      ++ " https://wiki.ivoa.net/twiki/bin/view/IVOA/ADQLVectorMath"
      ++ " for an overview of the functions and operators available."),
   tapDescribedFeature "CASE" "The SQL92 CASE expression"]

/-- One tr:language element of the TAP capability, with all its feature
blocks; the UDF features come from the (externally collected) UDF list,
sorted by signature. -/
def tapLanguageElement (cfg : Config) (lang : TapLanguage) : Stan :=
  Stan.elem "tr:language" []
    ([Stan.elem "tr:name" [] [Stan.text lang.langName]]
     ++ lang.versions.map (fun vv =>
          Stan.elem "tr:version" [("ivo-id", vv.2)] [Stan.text vv.1])
     ++ [Stan.elem "tr:description" [] [Stan.text lang.langDescription],
         tapLanguageFeatures "ivo://ivoa.net/std/TAPRegExt#features-udf"
           ((sortBySignature cfg.tapUdfs).map (fun u => tapDescribedFeature u.1 u.2)),
         tapLanguageFeatures "ivo://ivoa.net/std/TAPRegExt#features-adqlgeo"
           (["BOX", "POINT", "CIRCLE", "POLYGON", "REGION", "CENTROID", "COORD1",
             "COORD2", "DISTANCE", "CONTAINS", "INTERSECTS", "AREA"].map tapFormFeature),
         tapLanguageFeatures "ivo://ivoa.net/std/TAPRegExt#features-adql-string"
           (["LOWER", "ILIKE"].map tapFormFeature),
         tapLanguageFeatures "ivo://ivoa.net/std/TAPRegExt#features-adql-offset"
           (["OFFSET"].map tapFormFeature),
         tapLanguageFeatures "ivo://ivoa.net/std/TAPRegExt#features-adql-type"
           (["CAST"].map tapFormFeature),
         tapLanguageFeatures "ivo://ivoa.net/std/TAPRegExt#features-adql-unit"
           (["IN_UNIT"].map tapFormFeature),
         tapLanguageFeatures "ivo://ivoa.net/std/TAPRegExt#features-adql-common-table"
           (["WITH"].map tapFormFeature),
         tapLanguageFeatures "ivo://org.gavo.dc/std/exts#extra-adql-keywords"
           tapExtraKeywordFeatures,
         tapLanguageFeatures "ivo://ivoa.net/std/TAPRegExt#features-adql-sets"
           (["UNION", "EXCEPT", "INTERSECT"].map tapFormFeature)])

/-- The protocol-specific children of the TAP capability: data models
from the TAP_SCHEMA snapshot, the language and output-format and
upload-method declarations, and the policy values from process
configuration. -/
def tapCapabilityChildren (cfg : Config) : List Stan :=
  (cfg.tapSupportedModels.map (fun dm =>
     Stan.elem "tr:dataModel" [("ivo-id", dm.2)] [Stan.text dm.1]))
  ++ (cfg.tapLanguages.map (tapLanguageElement cfg))
  ++ (cfg.tapOutputFormats.map (fun f =>
       Stan.elem "tr:outputFormat" (optAttr "ivo-id" f.ivoId)
         (Stan.elem "tr:mime" [] [Stan.text f.mime]
          :: f.aliases.map (fun a => Stan.elem "tr:alias" [] [Stan.text a]))))
  ++ (cfg.tapUploadMethods.map (fun proto =>
       Stan.elem "tr:uploadMethod" [("ivo-id", "ivo://ivoa.net/std/TAPRegExt#" ++ proto)] []))
  ++ [Stan.elem "tr:retentionPeriod" []
        [Stan.elem "tr:default" [] [Stan.text cfg.asyncDefaultLifetime]],
      Stan.elem "tr:executionDuration" []
        [Stan.elem "tr:default" [] [Stan.text cfg.asyncDefaultExecTime]],
      Stan.elem "tr:outputLimit" []
        [Stan.elem "tr:default" [("unit", "row")] [Stan.text cfg.asyncDefaultMAXREC],
         Stan.elem "tr:hard" [("unit", "row")] [Stan.text cfg.asyncHardMAXREC]],
      Stan.elem "tr:uploadLimit" []
        [Stan.elem "tr:hard" [("unit", "byte")] [Stan.text cfg.webMaxUploadSize]]]

/-- TAPCapabilityMaker._getInterfaceElement: the classic TAP interface,
plus the experimental DALI interface when the dali-interface-in-tap
future flag is configured. -/
def tapInterfaceElements (cfg : Config) (pub : Publication) : Except IfError (List Stan) := do
  let i1 ← runIMaker .tapI cfg pub
  if cfg.future.contains "dali-interface-in-tap" then
    let i2 ← runIMaker .daliI cfg pub
    .ok [i1, i2]
  else
    .ok [i1]

/-- PlainCapabilityMaker._makeCapability for a given capability class:
the base capability with the maker's standardId attribute set on top. -/
def plainCapability (initAttrs : List (String × String)) (stdId : String) (cfg : Config)
    (pub : Publication) : Except RegError Stan :=
  (makeCapabilityBase "vr:capability" initAttrs cfg pub).map
    (fun s => stanSetAttr s "standardID" stdId)

/-- The source-URL browser interfaces and language elements the edition
capability maker appends. -/
def editionCapabilityChildren (pub : Publication) : List Stan :=
  ((metaContents pub.meta "sourceURL").map (fun su =>
     Stan.elem "vr:interface" [("xsi:type", "vr:WebBrowser"), ("role", "source")]
       [Stan.elem "vr:accessURL" [] [Stan.text su]]))
  ++ [Stan.elem "doc:languageCode" []
        [Stan.text ((getMetaText pub.meta "languageCode").getD "en")],
      Stan.elem "doc:locTitle" [] (optText (getMetaText pub.meta "locTitle"))]

/-- Runs one capability maker on a publication: each case reproduces the
corresponding _makeCapability override of capabilities.py on top of the
shared base, with the capability element classes of model.py. -/
def runCapabilityMaker (m : CMaker) (cfg : Config) (pub : Publication) :
    Except RegError Stan :=
  match m with
  | .api => makeCapabilityBase "vr:capability" [] cfg pub
  | .sia => do
      let base ← makeCapabilityBase "vr:capability"
        [("standardID", "ivo://ivoa.net/std/SIA"), ("xsi:type", "sia:SimpleImageAccess")] cfg pub
      let kids ← siaCapabilityChildren cfg pub
      .ok (stanAppend base kids)
  | .sia2 => do
      let base ← makeCapabilityBase "vr:capability"
        [("standardID", "ivo://ivoa.net/std/SIA#query-2.0"),
         ("xsi:type", "sia:SimpleImageAccess")] cfg pub
      let kids ← siaCapabilityChildren cfg pub
      .ok (stanAppend base kids)
  | .scsC => do
      let base ← makeCapabilityBase "vr:capability"
        [("standardID", "ivo://ivoa.net/std/ConeSearch"), ("xsi:type", "cs:ConeSearch")] cfg pub
      let kids ← scsCapabilityChildren cfg pub
      .ok (stanAppend base kids)
  | .ssa => do
      let base ← makeCapabilityBase "vr:capability"
        [("standardID", "ivo://ivoa.net/std/SSA"), ("xsi:type", "ssap:SimpleSpectralAccess")] cfg pub
      let kids ← ssaCapabilityChildren cfg pub
      .ok (stanAppend base kids)
  | .slapC => do
      let base ← makeCapabilityBase "vr:capability"
        [("standardID", "ivo://ivoa.net/std/SLAP"), ("xsi:type", "slap:SimpleLineAccess")] cfg pub
      let kids ← slapCapabilityChildren pub
      .ok (stanAppend base kids)
  | .tap =>
      (match tapInterfaceElements cfg pub with
       | .error e => .error (.iface e)
       | .ok ifaces =>
           .ok (stanAppend
             (makeCapabilityBaseWith "vr:capability"
               [("standardID", "ivo://ivoa.net/std/TAP"), ("xsi:type", "tr:TableAccess")]
               pub ifaces)
             (tapCapabilityChildren cfg)))
  | .registry => do
      let base ← makeCapabilityBase "vr:capability"
        [("standardID", "ivo://ivoa.net/std/Registry"), ("xsi:type", "vg:Harvest")] cfg pub
      .ok (stanAppend base [Stan.elem "vg:maxRecords" [] [Stan.text cfg.ivoaOaipmhPageSize]])
  | .vosiAvC =>
      plainCapability [("standardID", "ivo://ivoa.net/std/Registry")]
        "ivo://ivoa.net/std/VOSI#availability" cfg pub
  | .vosiCapC =>
      plainCapability [("standardID", "ivo://ivoa.net/std/Registry")]
        "ivo://ivoa.net/std/VOSI#capabilities" cfg pub
  | .vosiTMC =>
      plainCapability [("standardID", "ivo://ivoa.net/std/Registry")]
        "ivo://ivoa.net/std/VOSI#tables" cfg pub
  | .examplesC => plainCapability [] "ivo://ivoa.net/std/DALI#examples" cfg pub
  | .hips => plainCapability [] "ivo://ivoa.net/std/hips#hips-1.0" cfg pub
  | .soapC | .formC | .qpC | .externalC | .staticC | .volatileC | .customC
  | .jpeg | .fixedC | .docformC | .product =>
      makeCapabilityBase "vr:capability" [] cfg pub
  | .datalinkC =>
      makeCapabilityBase "vr:capability"
        [("standardID", "ivo://ivoa.net/std/DataLink#links-1.1")] cfg pub
  | .sodaSyncC =>
      makeCapabilityBase "vr:capability"
        [("standardID", "ivo://ivoa.net/std/SODA#sync-1.0")] cfg pub
  | .sodaAsyncC =>
      makeCapabilityBase "vr:capability"
        [("standardID", "ivo://ivoa.net/std/SODA#async-1.0")] cfg pub
  | .editionC => do
      let base ← makeCapabilityBase "doc:capability" [("xsi:type", "doc:Edition")] cfg pub
      .ok (stanAppend base (editionCapabilityChildren pub))

/-- getAuxiliaryCapability: the capability for an auxiliary publication
is the plain base capability with the normal maker's auxiliaryId as
standardID, or nothing when that maker declares no (non-empty)
auxiliaryId; an unknown renderer raises KeyError (uncaught here). -/
def getAuxiliaryCapability (cfg : Config) (pub : Publication) :
    Except RegError (Option Stan) :=
  match alookup pub.render capabilityMakerAssoc with
  | none => .error (.keyError pub.render)
  | some m =>
      match auxiliaryIdOf m with
      | some aid =>
          if aid = "" then .ok none
          else
            (makeCapabilityBase "vr:capability" [] cfg pub).map
              (fun c => some (stanSetAttr c "standardID" aid))
      | none => .ok none

/-- getCapabilityElement: auxiliary publications take the auxiliary
path; otherwise the capability resolver must know the renderer (there is
no default), and an unknown renderer becomes a ReportableError. -/
def getCapabilityElement (cfg : Config) (pub : Publication) :
    Except RegError (Option Stan) :=
  if pub.auxiliary then getAuxiliaryCapability cfg pub
  else
    match alookup pub.render capabilityMakerAssoc with
    | none =>
        .error (.reportable
          ("Do not know how to produce a capability for the " ++ pub.render ++ " renderer"))
    | some m => (runCapabilityMaker m cfg pub).map some

/-- A resource descriptor (RD): its source id, database schema, and RD
level meta block (the broader scope meta propagates into). -/
structure RDInfo where
  sourceId : String
  schema : String
  meta : MetaBlock
deriving Repr

/-- One table column, with the fields tableset.py reads; the external
base.sqltypeToVOTable conversion of its SQL type is carried as data
(votType, votLength, votXtype), and the column statistics arrive as the
already-serialized attribute pairs (the external utils.formatFloat
rendering is not remodelled). -/
structure ColumnDef where
  name : String
  quoted : Bool
  description : String
  unit : String
  ucd : String
  utype : String
  votType : String
  votLength : Option String
  votXtype : Option String
  declaredXtype : Option String
  hidden : Bool
  indexed : Bool
  primary : Bool
  required : Bool
  stats : List (String × String)
deriving Repr, DecidableEq

/-- One foreign key of a table definition. -/
structure ForeignKeyDef where
  destTableName : String
  source : List String
  dest : List String
deriving Repr, DecidableEq

/-- One table definition, with the fields the registry reads: its
qualified name, whether it is an output-table stand-in, its RD (absent
for generated tables), the adql marker, the obscoreClause property
marker, the row count, its meta and its columns and foreign keys. -/
structure TableDef where
  qname : String
  isOutputTable : Bool
  rd : Option RDInfo
  adql : Option String
  hasObscoreClause : Bool
  nrows : Option Nat
  meta : MetaBlock
  columns : List ColumnDef
  foreignKeys : List ForeignKeyDef
deriving Repr

/-- getEffectiveTableName: output tables are fudged to "output", others
use their lowercased qualified name. -/
def getEffectiveTableName (td : TableDef) : String :=
  if td.isOutputTable then "output" else td.qname.toLower

/-- tableset.voTableDataTypeFactory on the carried sqltypeToVOTable
output, with the adql:REGION declared-xtype hack. -/
def voTableDataTypeFactory (c : ColumnDef) : Stan :=
  let tlx :=
    if c.declaredXtype = some "adql:REGION" then ("char", some "*", some "adql:REGION")
    else (c.votType, c.votLength, c.votXtype)
  Stan.elem "vs:dataType"
    ([("xsi:type", "vs:VOTableType")] ++ optAttr "arraysize" tlx.2.1
     ++ optAttr "extendedType" tlx.2.2)
    [Stan.text tlx.1]

/-- getTableColumnFromColumn: the vs:column element with name (kept
verbatim for quoted names, lowercased otherwise), descriptive children,
the VOTable type, flags, and the statistics attributes. -/
def getTableColumnFromColumn (c : ColumnDef) : Stan :=
  let colName := if c.quoted then c.name else c.name.toLower
  let flags :=
    (if c.indexed then ["indexed"] else [])
    ++ (if c.primary then ["primary"] else if ¬c.required then ["nullable"] else [])
  Stan.elem "vs:column" c.stats
    ([Stan.elem "vs:name" [] [Stan.text colName],
      Stan.elem "vs:description" [] [Stan.text c.description],
      Stan.elem "vs:unit" [] [Stan.text c.unit],
      Stan.elem "vs:ucd" [] [Stan.text c.ucd],
      Stan.elem "vs:utype" [] [Stan.text c.utype],
      voTableDataTypeFactory c]
     ++ flags.map (fun f => Stan.elem "vs:flag" [] [Stan.text f]))

/-- getForeignKeyForForeignKey: nothing when the target table is not in
the tableset's name set. -/
def getForeignKeyForForeignKey (namesInSet : List String) (fk : ForeignKeyDef) :
    Option Stan :=
  let targetName := fk.destTableName.toLower
  if namesInSet.contains targetName then
    some (Stan.elem "vs:foreignKey" []
      (Stan.elem "vs:targetTable" [] [Stan.text targetName]
       :: (fk.source.zip fk.dest).map (fun p =>
            Stan.elem "vs:fkColumn" []
              [Stan.elem "vs:fromColumn" [] [Stan.text p.1.toLower],
               Stan.elem "vs:targetColumn" [] [Stan.text p.2.toLower]])))
  else none

/-- getTableForTableDef: the vs:table element; the type attribute is
faked to "output" from the effective name; the description propagates to
the RD meta; nrows renders a missing or zero count as empty text. -/
def getTableForTableDef (namesInSet : List String) (suppressBodies : Bool)
    (td : TableDef) : Stan :=
  let name := getEffectiveTableName td
  let res := Stan.elem "vs:table"
    (optAttr "type" (if name = "output" then some "output" else none))
    [Stan.elem "vs:name" [] [Stan.text name],
     Stan.elem "vs:title" [] (optText (getMetaText td.meta "title")),
     Stan.elem "vs:description" []
       (optText (getMetaTextProp td.meta ((td.rd.map RDInfo.meta).getD []) "description")),
     Stan.elem "vs:utype" [] (optText (getMetaText td.meta "utype")),
     Stan.elem "vs:nrows" []
       [Stan.text (match td.nrows with
                   | some n => if n = 0 then "" else toString n
                   | none => "")]]
  if suppressBodies then res
  else
    stanAppend res
      ((td.columns.filter (fun c => ¬c.hidden)).map getTableColumnFromColumn
       ++ td.foreignKeys.filterMap (getForeignKeyForForeignKey namesInSet))

/-- The external built-in //obscore RD behind the obscore stub, carried
as data (its meta is read only through the schema element). -/
def obscoreRDInfo : RDInfo :=
  { sourceId := "//obscore", schema := "ivoa", meta := [] }

/-- _getObscoreStub: the fake ivoa.obscore table definition declaring
that a data collection is also queryable through obscore. -/
def obscoreStub (cfg : Config) : TableDef :=
  { qname := "ivoa.obscore", isOutputTable := false, rd := some obscoreRDInfo,
    adql := none, hasObscoreClause := false, nrows := none,
    meta := [("description",
      mv ("This data collection is queryable in " ++ cfg.webSitename
          ++ "'s obscore table."))],
    columns := [], foreignKeys := [] }

/-- Finds the first schema pair for the ivoa schema and adds the obscore
stub to it unless ivoa.obscore is already among its tables; none when no
ivoa schema exists. -/
def addObscoreToIvoa (cfg : Config) :
    List (RDInfo × List TableDef) → Option (List (RDInfo × List TableDef))
  | [] => none
  | (rd, tables) :: rest =>
      if rd.schema = "ivoa" then
        if tables.any (fun td => td.qname.toLower == "ivoa.obscore") then
          some ((rd, tables) :: rest)
        else some ((rd, tables ++ [obscoreStub cfg]) :: rest)
      else (addObscoreToIvoa cfg rest).map (fun r => (rd, tables) :: r)

/-- The obscore-stub insertion of getTablesetForSchemaCollection: into
the first ivoa schema, else as a new trailing schema. -/
def applyObscoreStub (cfg : Config) (schemas : List (RDInfo × List TableDef)) :
    List (RDInfo × List TableDef) :=
  match addObscoreToIvoa cfg schemas with
  | some s => s
  | none => schemas ++ [(obscoreRDInfo, [obscoreStub cfg])]

/-- One vs:schema element for an (rd, tables) pair. -/
def schemaElem (namesInSet : List String) (suppressBodies : Bool)
    (p : RDInfo × List TableDef) : Stan :=
  Stan.elem "vs:schema" []
    ([Stan.elem "vs:name" [] [Stan.text p.1.schema],
      Stan.elem "vs:title" [] (optText (getMetaText p.1.meta "title")),
      Stan.elem "vs:description" [] (optText (getMetaText p.1.meta "description")),
      Stan.elem "vs:utype" [] (optText (getMetaText p.1.meta "utype"))]
     ++ p.2.map (getTableForTableDef namesInSet suppressBodies))

/-- getTablesetForSchemaCollection: collects the effective table names,
inserts the obscore stub when an obscore-published table is present, and
emits one schema element per (rd, tables) pair. -/
def getTablesetForSchemaCollection (cfg : Config)
    (schemas : List (RDInfo × List TableDef)) (suppressBodies : Bool) : Stan :=
  let namesInSet :=
    (schemas.flatMap (fun p => p.2)).map (fun td => (getEffectiveTableName td).toLower)
  let obscorePublished := (schemas.flatMap (fun p => p.2)).any (fun td => td.hasObscoreClause)
  let schemas := if obscorePublished then applyObscoreStub cfg schemas else schemas
  Stan.elem "vs:tableset" [] (schemas.map (schemaElem namesInSet suppressBodies))

/-- The schema key a table is grouped under: its RD's schema, or
"internal" for generated tables without an RD. -/
def schemaKeyOf (td : TableDef) : String :=
  match td.rd with
  | some rd => rd.schema
  | none => "internal"

/-- The _InternalSchemaStandin place-holder RD for schema-less tables. -/
def internalSchemaRD : RDInfo :=
  { sourceId := "", schema := "internal",
    meta := [("title", mv "Not a Schema"),
             ("description", mv "A helper for virtual and temporary tables")] }

/-- The RD recorded for a table when grouping (the stand-in for tables
without one). -/
def rdRecordedFor (td : TableDef) : RDInfo :=
  (td.rd).getD internalSchemaRD

/-- First-occurrence deduplication of schema keys. -/
def dedupFirst (seen : List String) : List String → List String
  | [] => []
  | k :: rest =>
      if seen.contains k then dedupFirst seen rest
      else k :: dedupFirst (k :: seen) rest

/-- Insertion into a sorted string list. -/
def insertSortedStr (x : String) : List String → List String
  | [] => [x]
  | y :: ys => if x ≤ y then x :: y :: ys else y :: insertSortedStr x ys

/-- Insertion sort on strings (the sorted() over schema names). -/
def sortStrings : List String → List String
  | [] => []
  | x :: xs => insertSortedStr x (sortStrings xs)

/-- Groups tables into (rd, tables) schema pairs: one pair per schema
name in sorted order, the tables of a schema in input order, and the RD
of the last table seen for that schema recording the schema (rdForSchema
is overwritten on each table in the source). -/
def groupSchemas (tables : List TableDef) : List (RDInfo × List TableDef) :=
  let keys := sortStrings (dedupFirst [] (tables.map schemaKeyOf))
  keys.map (fun k =>
    let inSchema := tables.filter (fun td => schemaKeyOf td == k)
    ((inSchema.foldl (fun _ td => rdRecordedFor td) internalSchemaRD), inSchema))

/-- The three input shapes of getTablesetForService: a bare table
definition, a data descriptor (only its queryable, non-hidden tables),
or a service with its table set. -/
inductive TablesetSource where
  | tableDef (td : TableDef)
  | dataDescriptor (tds : List TableDef)
  | service (tables : List TableDef)

/-- The table list getTablesetForService derives from its input. -/
def tablesetTables (src : TablesetSource) : List TableDef :=
  match src with
  | .tableDef td => [td]
  | .dataDescriptor tds =>
      tds.filter (fun td => match td.adql with
                  | some a => a ≠ "" ∧ a ≠ "hidden"
                  | none => false)
  | .service ts => ts

/-- getTablesetForService: an empty table list yields the fixed default
schema; otherwise the tables are grouped by schema and assembled. -/
def getTablesetForService (cfg : Config) (src : TablesetSource)
    (suppressBodies : Bool) : Stan :=
  let tables := tablesetTables src
  if tables.isEmpty then
    Stan.elem "vs:tableset" []
      [Stan.elem "vs:schema" [] [Stan.elem "vs:name" [] [Stan.text "default"]]]
  else
    getTablesetForSchemaCollection cfg (groupSchemas tables) suppressBodies

/-- A describable resource object (service, resource record, table or
data descriptor) with the fields the registry code reads: identity, its
RD, the resType class attribute (the fallback behind the resType meta),
its meta block, its publications, and the external per-object behaviour
carried as data: the owner (limitTo), browseability per renderer (none
when the object has no isBrowseableWith, i.e. is not a service-based
page), the URL builder, whether it is a service (the footprint-URL
factory checks this), whether base.validateStructure accepts it, its
table set, and (for table/data kinds) its own or its iterated table
definitions. -/
structure Resob where
  id : String
  rd : RDInfo
  resTypeAttr : String
  meta : MetaBlock
  publications : List Publication
  limitTo : Option String
  isBrowseableWith : Option (List String)
  getURL : String → String
  isService : Bool
  validStructure : Bool
  tables : List TableDef
  selfTable : Option TableDef

/-- The process environment of one build: configuration, the managed
authorities of the main registry, the dc.res_dependencies table, the
external STC-S parser (stc.parseSTCS composed with stc.astToStan), and
the clock reading (datetime.utcnow rendered). -/
structure Env where
  cfg : Config
  managedAuthorities : List String
  resDependencies : List (String × List String)
  parseSTCS : String → Except String Stan
  now : String

/-- Attribute merging for leaf rules: resolved side-attribute bindings
override the element class defaults. -/
def mergeAttrs (fixed resolved : List (String × String)) : List (String × String) :=
  fixed.filter (fun p => (alookup p.1 resolved).isNone) ++ resolved

/-- Modelled from the spec: a leaf rule of the Model-Based Builder (the
spec-compiler component of section 4.3, which lives in gavo.base.meta,
outside src/) -- for every value of the key, in source order, one
element whose declared attribute bindings are resolved from the value's
side-attributes and whose text is the value's content. -/
def leafElems (mb : MetaBlock) (key tag : String)
    (fixedAttrs : List (String × String)) (attrMap : List (String × String)) :
    List Stan :=
  (metaAll mb key).map (fun v =>
    Stan.elem tag
      (mergeAttrs fixedAttrs
        (attrMap.filterMap (fun p => (v.sideAttr p.2).map (fun a => (p.1, a)))))
      [Stan.text v.content])

/-- Modelled from the spec: a keyed rule with child rules -- for every
value of the key, one container element whose children are built from
the value's child meta items. -/
def keyedGroupElems (mb : MetaBlock) (key tag : String)
    (childBuild : MetaBlock → List Stan) : List Stan :=
  (metaAll mb key).map (fun v => Stan.elem tag [] (childBuild v.childMeta))

/-- Modelled from the spec: a group rule without a key -- the container
is built once over the same meta block and dropped when all its children
are absent (the spec's transitive emptiness rule, applied here at the
children-present level since absent leaves already produce nothing). -/
def groupElem (tag : String) (kids : List Stan) : List Stan :=
  if kids.isEmpty then [] else [Stan.elem tag [] kids]

/-- Modelled from the spec: utils.couldBeABibcode (external) recognizes
the fixed-length bibcode shape, a 19-character code opening with a
four-digit year. -/
def couldBeABibcode (s : String) : Bool :=
  s.length == 19 && (s.data.take 4).all Char.isDigit

/-- _build_source: a vr:source element per source meta value, with a
format="bibcode" attribute when the text looks like a bibcode. -/
def buildSource (mb : MetaBlock) : List Stan :=
  (metaAll mb "source").map (fun v =>
    Stan.elem "vr:source"
      (if couldBeABibcode v.content then [("format", "bibcode")] else [])
      [Stan.text v.content])

/-- Modelled from the spec: utils.dateRE (external) matching at the
start of the string, an ISO date YYYY-MM-DD. -/
def matchesDateRE (s : String) : Bool :=
  match s.data with
  | a :: b :: c :: d :: h1 :: e :: f :: h2 :: g :: h :: _ =>
      a.isDigit && b.isDigit && c.isDigit && d.isDigit && h1 == '-'
      && e.isDigit && f.isDigit && h2 == '-' && g.isDigit && h.isDigit
  | _ => false

/-- _build_dateFromNews: a _news meta item with a date side-attribute in
ISO shape becomes a vr:date, with the role side-attribute defaulting to
updated. -/
def buildDateFromNews (mb : MetaBlock) : List Stan :=
  (metaAll mb "_news").filterMap (fun v =>
    if matchesDateRE ((v.sideAttr "date").getD "") then
      some (Stan.elem "vr:date" [("role", (v.sideAttr "role").getD "updated")]
        [Stan.text ((v.sideAttr "date").getD "")])
    else none)

/-- The child rules of a creator meta item in _vrResourceBuilder. -/
def creatorChildren (mb : MetaBlock) : List Stan :=
  leafElems mb "name" "vr:name" [] []
  ++ leafElems mb "altIdentifier" "vr:altIdentifier" [] []
  ++ leafElems mb "logo" "vr:logo" [] []

/-- The child rules of a contact meta item in _vrResourceBuilder. -/
def contactChildren (mb : MetaBlock) : List Stan :=
  leafElems mb "name" "vr:name" [] [("ivo-id", "ivoId")]
  ++ leafElems mb "address" "vr:address" [] []
  ++ leafElems mb "email" "vr:email" [] []
  ++ leafElems mb "telephone" "vr:telephone" [] []

/-- The curation group of _vrResourceBuilder. -/
def curationChildren (mb : MetaBlock) : List Stan :=
  leafElems mb "publisher" "vr:publisher" [] [("ivo-id", "ivoId")]
  ++ keyedGroupElems mb "creator" "vr:creator" creatorChildren
  ++ leafElems mb "contributor" "vr:contributor" [] [("ivo-id", "ivoId")]
  ++ leafElems mb "_dataUpdated" "vr:date" [("role", "updated")] []
  ++ leafElems mb "date" "vr:date" [] [("role", "role")]
  ++ buildDateFromNews mb
  ++ leafElems mb "version" "vr:version" [] []
  ++ keyedGroupElems mb "contact" "vr:contact" contactChildren

/-- First character lowercased (the new-style relationship meta keys). -/
def lowerFirst (s : String) : String :=
  match s.data with
  | [] => ""
  | c :: rest => String.mk (c.toLower :: rest)

/-- The (meta key, relationship term) pairs of _vrResourceBuilder: the
old VOResource 1.0 vocabulary followed by the VOResource 1.1 terms. -/
def relationshipEntries : List (String × String) :=
  [("servedBy", "IsServedBy"), ("serviceFor", "IsServiceFor"),
   ("derivedFrom", "IsDerivedFrom"), ("relatedTo", "related-to"),
   ("mirrorOf", "IsIdenticalTo"), ("uses", "Cites")]
  ++ (["Cites", "IsSupplementTo", "IsSupplementedBy", "IsContinuedBy", "Continues",
       "IsNewVersionOf", "IsPreviousVersionOf", "IsPartOf", "HasPart", "IsSourceOf",
       "IsDerivedFrom", "IsIdenticalTo", "IsServiceFor", "IsServedBy"].map
        (fun term => (lowerFirst term, term)))

/-- The relationship groups: a vr:relationship per vocabulary term that
has related-resource meta values (a relationship without any
relatedResource is empty by the special rule of model.py and dropped). -/
def relationshipElems (mb : MetaBlock) : List Stan :=
  relationshipEntries.filterMap (fun p =>
    let vals := metaAll mb p.1
    if vals.isEmpty then none
    else some (Stan.elem "vr:relationship" []
      (Stan.elem "vr:relationshipType" [] [Stan.text p.2]
       :: vals.map (fun v =>
            Stan.elem "vr:relatedResource" (optAttr "ivo-id" (v.sideAttr "ivoId"))
              [Stan.text v.content]))))

/-- The content group of _vrResourceBuilder. -/
def contentChildren (mb : MetaBlock) : List Stan :=
  leafElems mb "subject" "vr:subject" [] []
  ++ leafElems mb "description" "vr:description" [] []
  ++ buildSource mb
  ++ leafElems mb "referenceURL" "vr:referenceURL" [] []
  ++ leafElems mb "type" "vr:type" [] []
  ++ leafElems mb "contentLevel" "vr:contentLevel" [] []
  ++ relationshipElems mb

/-- _vrResourceBuilder.build: title, shortName, identifier, doi, then
the curation and content groups. -/
def vrResourceBuild (mb : MetaBlock) : List Stan :=
  leafElems mb "title" "vr:title" [] []
  ++ leafElems mb "shortName" "vr:shortName" [] []
  ++ leafElems mb "identifier" "vr:identifier" [] []
  ++ (metaAll mb "doi").map (fun v =>
       Stan.elem "vr:altIdentifier" [] [Stan.text ("doi:" ++ v.content)])
  ++ groupElem "vr:curation" (curationChildren mb)
  ++ groupElem "vr:content" (contentChildren mb)

/-- _dcBuilder.build: the flat Dublin Core mapping; creator and
contributor names are spliced without a container. -/
def dcBuild (mb : MetaBlock) : List Stan :=
  leafElems mb "title" "dc:title" [] []
  ++ leafElems mb "identifier" "dc:identifier" [] []
  ++ (metaAll mb "creator").flatMap (fun v => leafElems v.childMeta "name" "dc:creator" [] [])
  ++ (metaAll mb "contributor").flatMap (fun v =>
       leafElems v.childMeta "name" "dc:contributor" [] [])
  ++ leafElems mb "description" "dc:description" [] []
  ++ leafElems mb "language" "dc:language" [] []
  ++ leafElems mb "rights" "dc:rights" [] []
  ++ leafElems mb "publisher" "dc:publisher" [] []

/-- _oaiHeaderBuilder.build. -/
def oaiHeaderBuild (mb : MetaBlock) : List Stan :=
  leafElems mb "identifier" "oai:identifier" [] []
  ++ leafElems mb "_metadataUpdated" "oai:datestamp" [] []
  ++ leafElems mb "sets" "oai:setSpec" [] []

/-- _orgMetaBuilder.build. -/
def orgMetaBuild (mb : MetaBlock) : List Stan :=
  leafElems mb "facility" "vr:facility" [] []
  ++ leafElems mb "instrument" "vr:instrument" []
       [("altIdentifier", "altIdentifier"), ("ivo-id", "ivoId")]

/-- _rightsBuilder.build. -/
def rightsBuild (mb : MetaBlock) : List Stan :=
  leafElems mb "rights" "vr:rights" [] [("rightsURI", "rightsURI")]

/-- _registryMetaBuilder.build. -/
def registryMetaBuild (mb : MetaBlock) : List Stan :=
  leafElems mb "managedAuthority" "vg:managedAuthority" [] []

/-- The child rules of a key meta item in _standardsMetaBuilder. -/
def standardsKeyChildren (mb : MetaBlock) : List Stan :=
  leafElems mb "name" "vstd:name" [] []
  ++ leafElems mb "description" "vstd:description" [] []

/-- _standardsMetaBuilder.build (the endorsedVersion element class
carries status and use attribute defaults). -/
def standardsMetaBuild (mb : MetaBlock) : List Stan :=
  leafElems mb "endorsedVersion" "vstd:endorsedVersion"
    [("status", "n/a"), ("use", "preferred")] [("status", "status"), ("use", "use")]
  ++ leafElems mb "deprecated" "vstd:deprecated" [] []
  ++ keyedGroupElems mb "key" "vstd:key" standardsKeyChildren

/-- The VALIDATING module flag of builders.py: False in the shipped
source (set to True to make coverage-profile errors fatal). -/
def VALIDATING : Bool := false

/-- _stcResourceProfile on the content list one profile meta value
contributes: an empty list yields nothing; a parse failure is re-raised
in validating mode, and otherwise reported (first component) while the
substructure is omitted. -/
def stcResourceProfile (parse : String → Except String Stan) (validating : Bool)
    (metaValue : List String) : List String × Except String (Option Stan) :=
  match metaValue with
  | [] => ([], .ok none)
  | v :: _ =>
      match parse v with
      | .ok profile => ([], .ok (some profile))
      | .error exc =>
          if validating then ([], .error exc)
          else
            (["Coverage profile '" ++ v ++ "' bad while generating registry ("
              ++ exc ++ ").  It is left out."], .ok none)

/-- All profile sub-elements of one coverage meta item: the factory is
invoked once per profile value. -/
def stcProfiles (parse : String → Except String Stan) (validating : Bool) :
    List String → List String × Except String (List Stan)
  | [] => ([], .ok [])
  | c :: rest =>
      let (e1, r1) := stcResourceProfile parse validating [c]
      match r1 with
      | .error e => (e1, .error e)
      | .ok p =>
          let (e2, r2) := stcProfiles parse validating rest
          (e1 ++ e2,
           r2.map (fun ps => (match p with | some x => [x] | none => []) ++ ps))

/-- The children of one vs:coverage element: the embedded STC profile,
the spatial/temporal/spectral leaves, the footprint URL for spatial
coverage on services, waveband and regionOfRegard. -/
def coverageValueChildren (env : Env) (validating : Bool) (res : Resob)
    (v : MetaValue) : List String × Except String (List Stan) :=
  let (errs, profRes) := stcProfiles env.parseSTCS validating (metaContents v.childMeta "profile")
  match profRes with
  | .error e => (errs, .error e)
  | .ok profs =>
      (errs, .ok (profs
        ++ leafElems v.childMeta "spatial" "vs:spatial" [] []
        ++ leafElems v.childMeta "temporal" "vs:temporal" [] []
        ++ leafElems v.childMeta "spectral" "vs:spectral" [] []
        ++ ((metaAll v.childMeta "spatial").filterMap (fun _ =>
              if res.isService then
                some (Stan.elem "vs:footprint" [("ivo-id", "ivo://ivoa.net/std/moc")]
                  [Stan.text (res.getURL "coverage")])
              else none))
        ++ leafElems v.childMeta "waveband" "vs:waveband" [] []
        ++ leafElems v.childMeta "regionOfRegard" "vs:regionOfRegard" [] []))

/-- The recursion of _coverageMetaBuilder.build over the coverage meta
values: a raised parse error stops the build, otherwise each value
contributes its (possibly dropped) vs:coverage group. -/
def coverageMetaBuildAux (env : Env) (validating : Bool) (res : Resob) :
    List MetaValue → List String × Except String (List Stan)
  | [] => ([], .ok [])
  | v :: rest =>
      match coverageValueChildren env validating res v with
      | (e2, .error e) => (e2, .error e)
      | (e2, .ok kids) =>
          match coverageMetaBuildAux env validating res rest with
          | (erest, .error e) => (e2 ++ erest, .error e)
          | (erest, .ok sofar) => (e2 ++ erest, .ok (groupElem "vs:coverage" kids ++ sofar))

/-- _coverageMetaBuilder.build: one vs:coverage group per coverage meta
value, dropped when all its children are absent. -/
def coverageMetaBuild (env : Env) (validating : Bool) (res : Resob) :
    List String × Except String (List Stan) :=
  coverageMetaBuildAux env validating res (metaAll res.meta "coverage")

/-- getPublicationsForSet: the publications whose set memberships meet
the requested names. -/
def getPublicationsForSet (res : Resob) (names : List String) : List Publication :=
  res.publications.filter (fun p => p.sets.any (fun s => names.contains s))

/-- One capability element per eligible publication; a None from the
auxiliary path flattens away, an exception aborts the resource. -/
def capabilityElementsFor (env : Env) (res : Resob) (setNames : List String) :
    Except RegError (List Stan) :=
  ((getPublicationsForSet res setNames).mapM (fun p => getCapabilityElement env.cfg p)).map
    (fun l => l.filterMap id)

/-- getResourceArgs plus the forced ri prefix and the xsi:type of the
maker's resource class, as the root element's attributes (None-valued
ones omitted). -/
def resourceBaseAttrs (res : Resob) (xsiType : Option String) : List (String × String) :=
  optAttr "created" (getMetaTextProp res.meta res.rd.meta "creationDate")
  ++ optAttr "updated" (getMetaTextProp res.meta res.rd.meta "_metadataUpdated")
  ++ optAttr "status" (getMetaText res.meta "status")
  ++ optAttr "xsi:type" xsiType

/-- The validationLevel element; str() of a missing validatedBy meta is
the Python text None. -/
def validationLevelElem (res : Resob) : Stan :=
  Stan.elem "vr:validationLevel"
    [("validatedBy", (getMetaText res.meta "validatedBy").getD "None")]
    (optText (getMetaText res.meta "validationLevel"))

/-- The prerequisite-dependency cache keyed by RD source id (the cached
dependencies attribute _loadDependencies hangs on the RD object). -/
abbrev DepCache := List (String × List String)

/-- common.getDependencies: the dc.res_dependencies rows for an RD. -/
def getDependencies (env : Env) (rdId : String) : List String :=
  (alookup rdId env.resDependencies).getD []

/-- ResourceMaker._loadDependencies: computes and caches an RD's
dependency list once; the base.caches.getRD warm-up it triggers is an
external side effect with no bearing on the produced tree. -/
def loadDependencies (env : Env) (cache : DepCache) (res : Resob) : DepCache :=
  match alookup res.rd.sourceId cache with
  | some _ => cache
  | none => (res.rd.sourceId, getDependencies env res.rd.sourceId) :: cache

/-- ResourceMaker._makeResource's element: the ri:Resource root with the
base attributes, the validationLevel child and the
_vrResourceBuilder output. -/
def makeResourceBaseStan (res : Resob) (xsiType : Option String) : Stan :=
  Stan.elem "ri:Resource" (resourceBaseAttrs res xsiType)
    (validationLevelElem res :: vrResourceBuild res.meta)

/-- The output of a resource maker: reported errors and either the
produced top-level nodes (empty for the deleted tombstone) or the
exception, together with the updated dependency cache. -/
abbrev MakerOut := (List String × Except RegError (List Stan)) × DepCache

/-- ServiceResourceMaker._makeResource for the resource class of the
most specialized maker: the base resource plus the rights block and one
capability per eligible publication. -/
def makeServiceResourceWith (xsiType : Option String) (env : Env) (cache : DepCache)
    (res : Resob) (setNames : List String) : MakerOut :=
  let cache' := loadDependencies env cache res
  let base := makeResourceBaseStan res xsiType
  match capabilityElementsFor env res setNames with
  | .error e => (([], .error e), cache')
  | .ok caps => (([], .ok [stanAppend base (rightsBuild res.meta ++ caps)]), cache')

/-- DataServiceResourceMaker._makeResource: the service resource plus
organisation and coverage meta. -/
def makeDataServiceResourceWith (xsiType : Option String) (env : Env) (cache : DepCache)
    (res : Resob) (setNames : List String) : MakerOut :=
  match makeServiceResourceWith xsiType env cache res setNames with
  | ((w, .error e), c) => ((w, .error e), c)
  | ((w, .ok body), c) =>
      let (w2, cov) := coverageMetaBuild env VALIDATING res
      match cov with
      | .error e => ((w ++ w2, .error (.validation e)), c)
      | .ok covElems =>
          ((w ++ w2,
            .ok (body.map (fun s => stanAppend s (orgMetaBuild res.meta ++ covElems)))), c)

/-- CatalogServiceResourceMaker._makeResource: the data service resource
plus the tableset of the service's table set. -/
def makeCatalogServiceResourceWith (xsiType : Option String) (env : Env)
    (cache : DepCache) (res : Resob) (setNames : List String) : MakerOut :=
  match makeDataServiceResourceWith xsiType env cache res setNames with
  | ((w, .error e), c) => ((w, .error e), c)
  | ((w, .ok body), c) =>
      ((w, .ok (body.map (fun s =>
          stanAppend s [getTablesetForService env.cfg (.service res.tables) false]))), c)

/-- RegistryResourceMaker._makeResource: the service resource plus full,
managed authorities and the tableset. -/
def makeRegistryResource (env : Env) (cache : DepCache) (res : Resob)
    (setNames : List String) : MakerOut :=
  match makeServiceResourceWith (some "vg:Registry") env cache res setNames with
  | ((w, .error e), c) => ((w, .error e), c)
  | ((w, .ok body), c) =>
      ((w, .ok (body.map (fun s => stanAppend s
          ([Stan.elem "vg:full" [] [Stan.text ((getMetaText res.meta "full").getD "false")]]
           ++ registryMetaBuild res.meta
           ++ [getTablesetForService env.cfg (.service res.tables) false])))), c)

/-- OrgResourceMaker._makeResource. -/
def makeOrgResource (env : Env) (cache : DepCache) (res : Resob) : MakerOut :=
  let cache' := loadDependencies env cache res
  (([], .ok [stanAppend (makeResourceBaseStan res (some "vr:Organisation"))
      (orgMetaBuild res.meta)]), cache')

/-- AuthResourceMaker._makeResource. -/
def makeAuthResource (env : Env) (cache : DepCache) (res : Resob) : MakerOut :=
  let cache' := loadDependencies env cache res
  (([], .ok [stanAppend (makeResourceBaseStan res (some "vg:Authority"))
      [Stan.elem "vg:managingOrg"
         (optAttr "ivo-id" (getMetaText res.meta "managingOrg.ivo-id"))
         (optText (getMetaText res.meta "managingOrg"))]]), cache')

/-- StandardsResourceMaker._makeResource. -/
def makeStandardsResource (env : Env) (cache : DepCache) (res : Resob) : MakerOut :=
  let cache' := loadDependencies env cache res
  (([], .ok [stanAppend (makeResourceBaseStan res (some "vstd:Standard"))
      (standardsMetaBuild res.meta)]), cache')

/-- Keep-first deduplication of table definitions by qualified name
(the set() the data maker applies to iterTableDefs, stable within one
process). -/
def dedupTables (seen : List String) : List TableDef → List TableDef
  | [] => []
  | td :: rest =>
      if seen.contains td.qname then dedupTables seen rest
      else td :: dedupTables (td.qname :: seen) rest

/-- DataCollectionResourceMaker._makeResourceForSchemas: base resource
(CatalogResource class) plus capabilities, organisation and coverage
meta and the tableset of the given schemas; note there is no rights
block on this path. -/
def makeDataCollectionResource (env : Env) (cache : DepCache) (res : Resob)
    (setNames : List String) (schemas : List (RDInfo × List TableDef)) : MakerOut :=
  let cache' := loadDependencies env cache res
  let base := makeResourceBaseStan res (some "vs:CatalogResource")
  match capabilityElementsFor env res setNames with
  | .error e => (([], .error e), cache')
  | .ok caps =>
      let (w2, cov) := coverageMetaBuild env VALIDATING res
      match cov with
      | .error e => ((w2, .error (.validation e)), cache')
      | .ok covElems =>
          ((w2, .ok [stanAppend base
             (caps ++ orgMetaBuild res.meta ++ covElems
              ++ [getTablesetForSchemaCollection env.cfg schemas false])]), cache')

/-- common.getResType: the resType meta first, the resType class
attribute as fallback. -/
def getResType (res : Resob) : String :=
  (getMetaText res.meta "resType").getD res.resTypeAttr

/-- getVORMetadataElement: resolves the resource maker for the res type
(KeyError for an unknown type, the resolver having no default) and runs
it; the deleted maker contributes no body at all. -/
def getVORMetadataElement (env : Env) (cache : DepCache) (res : Resob)
    (setNames : List String) : MakerOut :=
  match getResType res with
  | "nonTabularService" => makeServiceResourceWith (some "vs:DataService") env cache res setNames
  | "dataService" => makeDataServiceResourceWith (some "vs:DataService") env cache res setNames
  | "catalogService" => makeCatalogServiceResourceWith (some "vs:CatalogService") env cache res setNames
  | "registry" => makeRegistryResource env cache res setNames
  | "organization" => makeOrgResource env cache res
  | "authority" => makeAuthResource env cache res
  | "standard" => makeStandardsResource env cache res
  | "document" => makeCatalogServiceResourceWith (some "doc:Document") env cache res setNames
  | "deleted" => (([], .ok []), cache)
  | "table" =>
      makeDataCollectionResource env cache res setNames
        [(res.rd, (res.selfTable.map (fun td => [td])).getD [])]
  | "data" =>
      makeDataCollectionResource env cache res setNames
        [(res.rd, dedupTables [] res.tables)]
  | other => (([], .error (.keyError other)), cache)

/-- getResourceElement: the OAI record wrapper with header (status
deleted when the status meta says so) and metadata body. -/
def getResourceElement (res : Resob) (body : List Stan) : Stan :=
  let status := if getMetaText res.meta "status" = some "deleted" then some "deleted" else none
  Stan.elem "oai:record" []
    [Stan.elem "oai:header" (optAttr "status" status) (oaiHeaderBuild res.meta),
     Stan.elem "oai:metadata" [] body]

/-- The default set of getVOResourceElement and friends. -/
def defaultSetNames : List String := ["ivo_managed"]

/-- getVOResourceElement with the dependency cache threaded through. -/
def getVOResourceElement (env : Env) (cache : DepCache) (res : Resob)
    (setNames : List String) : (List String × Except RegError Stan) × DepCache :=
  match getVORMetadataElement env cache res setNames with
  | ((w, .error e), c) => ((w, .error e), c)
  | ((w, .ok body), c) => ((w, .ok (getResourceElement res body)), c)

/-- getVOResourceElement from a cold cache, keeping only the record or
the exception. -/
def getVOResourceElementPlain (env : Env) (res : Resob) (setNames : List String) :
    Except RegError Stan :=
  ((getVOResourceElement env [] res setNames).1).2

/-- getDCMetadataElement. -/
def getDCMetadataElement (res : Resob) : Stan :=
  Stan.elem "oai_dc:dc" [] (dcBuild res.meta)

/-- getDCResourceElement (the DC path cannot fail). -/
def getDCResourceElement (res : Resob) : Stan :=
  getResourceElement res [getDCMetadataElement res]

/-- A one-line description of an error for the error-sink reports. -/
def RegError.describe : RegError → String
  | .iface _ => "interface construction failed"
  | .noMetaKey k => k
  | .keyError k => "KeyError: " ++ k
  | .reportable m => m
  | .skipThis m => m
  | .validation m => m
  | .typeErr m => m

/-- The notifyError report getDCListRecordsElement emits for one failed
record: the NoMetaKey wording for missing mandatory meta, the generic
wording otherwise. -/
def listRecordErrorReport (res : Resob) (e : RegError) : String :=
  match e with
  | .noMetaKey k =>
      "Cannot create registry record for " ++ res.rd.sourceId ++ "#" ++ res.id
      ++ " because mandatory meta " ++ k ++ " is missing"
  | other => "Cannot create registry record " ++ res.id ++ ".  Reason: " ++ other.describe

/-- The loop body of getDCListRecordsElement: built records are
collected in order, each failing record is dropped and reported. -/
def dcListRecordsAux (makeRecord : Resob → List String → Except RegError Stan)
    (setNames : List String) : List Resob → List Stan × List String
  | [] => ([], [])
  | r :: rest =>
      let (recs, errs) := dcListRecordsAux makeRecord setNames rest
      match makeRecord r setNames with
      | .ok s => (s :: recs, errs)
      | .error e => (recs, listRecordErrorReport r e :: errs)

/-- getDCListRecordsElement: the ListRecords element over the records
makeRecord could build, plus the error-sink reports for the rest; every
failure is caught, so the build itself always returns. -/
def getDCListRecordsElement (makeRecord : Resob → List String → Except RegError Stan)
    (resobs : List Resob) (setNames : List String) : Stan × List String :=
  let (recs, errs) := dcListRecordsAux makeRecord setNames resobs
  (Stan.elem "oai:ListRecords" [] recs, errs)

/-- getVOListRecordsElement: the same list assembly over the VOResource
record maker. -/
def getVOListRecordsElement (env : Env) (resobs : List Resob) (setNames : List String) :
    Stan × List String :=
  getDCListRecordsElement (fun r ns => getVOResourceElementPlain env r ns) resobs setNames

/-- The renders never shown to humans nor entered into dc.interfaces. -/
def HIDDEN_RENDERERS : List String := ["tableMetadata", "availability", "capabilities"]

/-- iterMeta with propagate=True: the carrier's own values, else the
containing scope's. -/
def metaAllProp (mb parent : MetaBlock) (key : String) : List MetaValue :=
  let own := metaAll mb key
  if own.isEmpty then metaAll parent key else own

/-- The dictionary makeBaseRecord assembles for the resources table. -/
structure BaseRec where
  ivoid : String
  shortName : Option String
  sourceRD : String
  resId : String
  title : Option String
  deleted : Bool
  recTimestamp : String
  description : Option String
  authors : String
  dateUpdated : Option String
deriving Repr, DecidableEq

/-- The dictionary iterSvcRecs assembles for the interfaces table. -/
structure IntfRec where
  sourceRD : String
  resId : String
  renderer : String
  accessURL : String
  referenceURL : Option String
  browseable : Bool
  deleted : Bool
deriving Repr, DecidableEq

/-- One (table name, row) pair the record projection yields, at the
moment of its yield: a resources row (iterSvcRecs adds the owner,
iterResRecs bakes in setName and renderer), an interfaces row, a sets
row (interface-shaped for services, record-shaped for resource
records), a subjects row or an authors row. -/
inductive Row where
  | resources (rec : BaseRec) (owner : Option String) (setName : Option String)
      (renderer : Option String)
  | interfaces (rec : IntfRec)
  | setsFromIntf (rec : IntfRec) (setName : String)
  | setsFromRec (rec : BaseRec) (setName : String) (renderer : String)
  | subjects (sourceRD resId subject : String)
  | authorRow (sourceRD resId author : String)
deriving Repr, DecidableEq

/-- makeBaseRecord: validates the structure, test-builds the VOResource
element, reads the identifier, rejects the x-unregistred pseudo
authority when ivo_managed publications exist without an i-am-sure
waiver, skips (with a warning, via SkipThis) resources of unmanaged
authorities, and otherwise assembles the base row.  The first component
collects the warnings sent to the ui. -/
def makeBaseRecord (env : Env) (res : Resob) (keepTimestamp : Bool) :
    List String × Except RegError BaseRec :=
  if ¬res.validStructure then ([], .error (.validation "MetaValidationError"))
  else
    match getVOResourceElementPlain env res defaultSetNames with
    | .error e => ([], .error e)
    | .ok _ =>
        match getMetaText res.meta "identifier" with
        | none => ([], .error (.typeErr "identifier meta missing"))
        | some ivoid =>
            let auth := (urlparseModel ivoid).netloc
            if auth = "x-unregistred" ∧ getMetaText res.meta "i-am-sure" ≠ some "yes"
                ∧ ¬(getPublicationsForSet res ["ivo_managed"]).isEmpty then
              ([], .error (.reportable
                ("Resource " ++ res.rd.sourceId ++ "#" ++ res.id
                 ++ " uses the authority x-unregistered; this is not permitted.")))
            else if ¬(env.managedAuthorities.contains auth) then
              (["Skipping publication of resource with identifier " ++ ivoid
                ++ " because we don't manage its authority"],
               .error (.skipThis "Resource from non-managed authority"))
            else
              ([], .ok {
                ivoid := ivoid,
                shortName := getMetaText res.meta "shortName",
                sourceRD := res.rd.sourceId,
                resId := res.id,
                title := getMetaTextProp res.meta res.rd.meta "title",
                deleted := false,
                recTimestamp :=
                  if keepTimestamp then (getMetaText res.meta "recTimestamp").getD env.now
                  else env.now,
                description := getMetaText res.meta "description",
                authors := String.intercalate "; "
                  ((metaAllProp res.meta res.rd.meta "creator.name").map MetaValue.content),
                dateUpdated := getMetaText res.meta "_dataUpdated" })

/-- iterAuthorsAndSubjects: one subjects row per subject meta value (the
str(None) placeholder row when there is none), and one authors row per
semicolon-separated author that is not an et-al tail. -/
def iterAuthorsAndSubjects (res : Resob) (sourceRD resId : String) : List Row :=
  let subjectVals := metaAll res.meta "subject"
  ((if subjectVals.isEmpty then ["None"] else subjectVals.map MetaValue.content).map
     (fun s => Row.subjects sourceRD resId s))
  ++ ((metaAllProp res.meta res.rd.meta "creator.name").flatMap (fun v =>
       ((v.content.splitOn ";").map String.trim).filterMap (fun a =>
         if a.startsWith "et al" then none
         else some (Row.authorRow sourceRD resId a))))

/-- The per-publication interface and sets rows of iterSvcRecs:
auxiliary and hidden-renderer publications are for the VO registry only
and yield nothing here. -/
def svcInterfaceRows (res : Resob) (rec : BaseRec) : List Row :=
  res.publications.flatMap (fun pub =>
    if pub.auxiliary then []
    else if HIDDEN_RENDERERS.contains pub.render then []
    else
      let browseable :=
        match res.isBrowseableWith with
        | none => false
        | some l => l.contains pub.render
      let intfRec : IntfRec := {
        sourceRD := rec.sourceRD,
        resId := rec.resId,
        renderer := pub.render,
        accessURL := (pub.serviceGetURL.getD res.getURL) pub.render,
        referenceURL := getMetaText pub.serviceMeta "referenceURL",
        browseable := browseable,
        deleted := false }
      Row.interfaces intfRec :: pub.sets.map (fun s => Row.setsFromIntf intfRec s))

/-- iterSvcRecs: nothing for a service without publications; a SkipThis
from makeBaseRecord ends the iteration quietly, other exceptions
propagate; otherwise the resources row, the per-publication rows and
the authors/subjects rows. -/
def iterSvcRecs (env : Env) (res : Resob) (keepTimestamp : Bool) :
    List String × Except RegError (List Row) :=
  if res.publications.isEmpty then ([], .ok [])
  else
    match makeBaseRecord env res keepTimestamp with
    | (w, .error (.skipThis _)) => (w, .ok [])
    | (w, .error e) => (w, .error e)
    | (w, .ok rec) =>
        (w, .ok (Row.resources rec res.limitTo none none
          :: (svcInterfaceRows res rec
              ++ iterAuthorsAndSubjects res rec.sourceRD rec.resId)))

/-- iterResRecs: like iterSvcRecs for pure resource records, but with no
publication guard and fixed ivo_managed/rcdisplay resources and sets
rows. -/
def iterResRecs (env : Env) (res : Resob) (keepTimestamp : Bool) :
    List String × Except RegError (List Row) :=
  match makeBaseRecord env res keepTimestamp with
  | (w, .error (.skipThis _)) => (w, .ok [])
  | (w, .error e) => (w, .error e)
  | (w, .ok rec) =>
      (w, .ok ([Row.resources rec none (some "ivo_managed") (some "rcdisplay"),
                Row.setsFromRec rec "ivo_managed" "rcdisplay"]
        ++ iterAuthorsAndSubjects res rec.sourceRD rec.resId))

/-- The first text child of a child list. -/
def firstText : List Stan → Option String
  | [] => none
  | .text s :: _ => some s
  | .elem _ _ _ :: rest => firstText rest

/-- The mirrorURL values carried by a child list. -/
def mirrorValuesOfKids (kids : List Stan) : List String :=
  kids.filterMap (fun c =>
    if c.tagOf == "vr:mirrorURL" then firstText c.childrenOf else none)

/-- The mirrorURL values of an interface element. -/
def mirrorURLValues (s : Stan) : List String :=
  mirrorValuesOfKids s.childrenOf

/-- The value of the first accessURL child of a child list. -/
def accessURLValueOfKids (kids : List Stan) : Option String :=
  (kids.find? (fun c => c.tagOf == "vr:accessURL")).bind (fun c => firstText c.childrenOf)

/-- The primary access URL of an interface element. -/
def primaryAccessURL (s : Stan) : Option String :=
  accessURLValueOfKids s.childrenOf

/-- The coverage substructures of a resource in the shipped (lenient)
mode, which cannot fail. -/
def covElemsOf (env : Env) (res : Resob) : List Stan :=
  match (coverageMetaBuild env VALIDATING res).2 with
  | .ok es => es
  | .error _ => []

/-- Unwraps a successfully built capability or interface element. -/
def exceptOkStan (e : Except RegError Stan) : Stan :=
  match e with
  | .ok s => s
  | .error _ => Stan.text ""

/-- Unwraps the single document of a successful maker run. -/
def extractOkSingle (m : (List String × Except RegError (List Stan)) × DepCache) : Stan :=
  match m.1.2 with
  | .ok [s] => s
  | _ => Stan.text ""

/-- A process configuration for concrete evaluation. -/
def testConfig : Config :=
  { vanityLongToShort := [("long/path", "short")],
    registerAlternative := true,
    future := [],
    ivoaDalHardLimit := "10000",
    ivoaDalDefaultLimit := 100,
    ivoaOaipmhPageSize := "500",
    asyncDefaultLifetime := "86400",
    asyncDefaultExecTime := "3600",
    asyncDefaultMAXREC := "2000",
    asyncHardMAXREC := "10000000",
    webMaxUploadSize := "100000000",
    webSitename := "TestDC",
    tapSupportedModels := [], tapUdfs := [], tapLanguages := [],
    tapOutputFormats := [], tapUploadMethods := [] }

/-- A process environment for concrete evaluation, with an STC-S parser
that rejects everything. -/
def testEnv : Env :=
  { cfg := testConfig,
    managedAuthorities := ["test.auth"],
    resDependencies := [],
    parseSTCS := fun s => .error ("cannot parse " ++ s),
    now := "2026-10-12T00:00:00Z" }

/-- An auxiliary publication on the siap.xml mechanism (whose maker
declares an auxiliaryId). -/
def auxSiapPub : Publication :=
  { render := "siap.xml", auxiliary := true, sets := ["ivo_managed"],
    meta := [("accessURL", mv "http://example.org/svc/siap.xml?"),
             ("description", mv "An image service")],
    parentMeta := [], serviceMeta := [], serviceGetURL := none,
    inputKeys := some [], paramStyle := "pql" }

/-- An auxiliary publication on the form mechanism (whose maker declares
no auxiliaryId). -/
def auxFormPub : Publication :=
  { render := "form", auxiliary := true, sets := ["ivo_managed"],
    meta := [("accessURL", mv "http://example.org/svc/form")],
    parentMeta := [], serviceMeta := [], serviceGetURL := none,
    inputKeys := none, paramStyle := "form" }

/-- A plain form publication with mirror URLs, one of them equal to the
access URL. -/
def mirrorFormPub : Publication :=
  { render := "form", auxiliary := false, sets := ["ivo_managed"],
    meta := [("accessURL", mv "http://example.org/svc/form"),
             ("mirrorURL", mv "http://example.org/svc/form"),
             ("mirrorURL", mv "http://mirror.example.org/svc/form")],
    parentMeta := [], serviceMeta := [], serviceGetURL := none,
    inputKeys := none, paramStyle := "form" }

/-- A publication on an unregistered mechanism key. -/
def unknownRenderPub : Publication :=
  { render := "wowrender", auxiliary := false, sets := ["ivo_managed"],
    meta := [("accessURL", mv "http://example.org/svc/wow")],
    parentMeta := [], serviceMeta := [], serviceGetURL := none,
    inputKeys := none, paramStyle := "form" }

/-- A pure resource record (an organisation) without publications. -/
def orgResRec : Resob :=
  { id := "org1",
    rd := { sourceId := "test/rd", schema := "test", meta := [] },
    resTypeAttr := "organization",
    meta := [("identifier", mv "ivo://test.auth/org1"), ("title", mv "An organisation")],
    publications := [], limitTo := none, isBrowseableWith := none,
    getURL := fun _ => "", isService := false, validStructure := true,
    tables := [], selfTable := none }

/-- A non-auxiliary form publication for service fixtures. -/
def plainFormPub : Publication :=
  { render := "form", auxiliary := false, sets := ["ivo_managed"],
    meta := [("accessURL", mv "http://svc.example.org/q/form")],
    parentMeta := [], serviceMeta := [], serviceGetURL := none,
    inputKeys := none, paramStyle := "form" }

/-- A service publishing under the x-unregistred pseudo authority with
an ivo_managed publication and no i-am-sure waiver. -/
def xUnregSvc : Resob :=
  { id := "svc1",
    rd := { sourceId := "test/rd2", schema := "test", meta := [] },
    resTypeAttr := "nonTabularService",
    meta := [("identifier", mv "ivo://x-unregistred/svc1"), ("title", mv "A service")],
    publications := [plainFormPub], limitTo := none, isBrowseableWith := none,
    getURL := fun _ => "http://svc.example.org/q/form", isService := true,
    validStructure := true, tables := [], selfTable := none }

/-- A service of an authority the registry does not manage. -/
def unmanagedSvc : Resob :=
  { id := "svc2",
    rd := { sourceId := "test/rd4", schema := "test", meta := [] },
    resTypeAttr := "nonTabularService",
    meta := [("identifier", mv "ivo://other.auth/svc2"), ("title", mv "Foreign service")],
    publications := [plainFormPub], limitTo := none, isBrowseableWith := none,
    getURL := fun _ => "http://svc.example.org/q/form", isService := true,
    validStructure := true, tables := [], selfTable := none }

/-- A catalog service resource with one publication and one table. -/
def catSvc : Resob :=
  { id := "cat1",
    rd := { sourceId := "test/rd3", schema := "test", meta := [] },
    resTypeAttr := "catalogService",
    meta := [("identifier", mv "ivo://test.auth/cat1"), ("title", mv "A catalog"),
             ("rights", mv "CC0")],
    publications := [plainFormPub], limitTo := none, isBrowseableWith := none,
    getURL := fun _ => "http://svc.example.org/q/form", isService := true,
    validStructure := true,
    tables := [{ qname := "test.main", isOutputTable := false,
                 rd := some { sourceId := "test/rd3", schema := "test", meta := [] },
                 adql := some "True", hasObscoreClause := false, nrows := some 42,
                 meta := [], columns := [], foreignKeys := [] }],
    selfTable := none }

/-- A service resource without publications. -/
def noPubSvc : Resob :=
  { id := "svc3",
    rd := { sourceId := "test/rd5", schema := "test", meta := [] },
    resTypeAttr := "nonTabularService",
    meta := [("identifier", mv "ivo://test.auth/svc3"), ("title", mv "Unpublished")],
    publications := [], limitTo := none, isBrowseableWith := none,
    getURL := fun _ => "", isService := true, validStructure := true,
    tables := [], selfTable := none }

/-- The generic service document built for the catalog fixture. -/
def c6svcDoc : Stan :=
  extractOkSingle
    (makeServiceResourceWith (some "vs:CatalogService") testEnv [] catSvc defaultSetNames)

/-- The dependency cache after one maker run on the catalog fixture. -/
def c6cache : DepCache := loadDependencies testEnv [] catSvc

/-- Unwraps a successfully built interface element. -/
def exceptIfaceOkStan (e : Except IfError Stan) : Stan :=
  match e with
  | .ok s => s
  | .error _ => Stan.text ""

/-- The minimal (base) capability built for the auxiliary SIAP fixture. -/
def c1cap : Stan := exceptOkStan (makeCapabilityBase "vr:capability" [] testConfig auxSiapPub)

/-- The interface element built for the mirror fixture. -/
def c3iface : Stan := exceptIfaceOkStan (runIMaker .form testConfig mirrorFormPub)

/-! ## Theorems -/

theorem insertSortedStr_ne_nil (x : String) (l : List String) :
    insertSortedStr x l ≠ [] := by
  cases l with
  | nil => simp [insertSortedStr]
  | cons y ys => simp only [insertSortedStr]; split <;> simp

theorem sortStrings_ne_nil (x : String) (l : List String) :
    sortStrings (x :: l) ≠ [] := by
  simpa [sortStrings] using insertSortedStr_ne_nil x (sortStrings l)

theorem groupSchemas_ne_nil (tables : List TableDef) (h : tables ≠ []) :
    groupSchemas tables ≠ [] := by
  cases tables with
  | nil => exact absurd rfl h
  | cons t ts =>
      unfold groupSchemas
      simp only [List.map_cons, dedupFirst, List.contains_nil]
      intro hc
      have := sortStrings_ne_nil (schemaKeyOf t) (dedupFirst [schemaKeyOf t] (ts.map schemaKeyOf))
      simp only [List.map_eq_nil_iff] at hc
      exact this hc

theorem addObscoreToIvoa_ne_nil (cfg : Config) (l r : List (RDInfo × List TableDef))
    (h : addObscoreToIvoa cfg l = some r) : r ≠ [] := by
  induction l generalizing r with
  | nil => simp [addObscoreToIvoa] at h
  | cons p rest ih =>
      obtain ⟨rd, tables⟩ := p
      simp only [addObscoreToIvoa] at h
      split at h
      · split at h <;> (cases h; simp)
      · cases hr : addObscoreToIvoa cfg rest with
        | none => rw [hr] at h; simp at h
        | some r2 => rw [hr] at h; simp at h; rw [← h]; simp

theorem applyObscoreStub_ne_nil (cfg : Config) (schemas : List (RDInfo × List TableDef)) :
    schemas ≠ [] → applyObscoreStub cfg schemas ≠ [] := by
  intro h
  unfold applyObscoreStub
  cases hr : addObscoreToIvoa cfg schemas with
  | none => simp
  | some r => exact addObscoreToIvoa_ne_nil cfg schemas r hr

theorem tablesetForSchemaCollection_children_ne_nil (cfg : Config)
    (schemas : List (RDInfo × List TableDef)) (sb : Bool) (h : schemas ≠ []) :
    (getTablesetForSchemaCollection cfg schemas sb).childrenOf ≠ [] := by
  unfold getTablesetForSchemaCollection
  simp only [Stan.childrenOf, ne_eq, List.map_eq_nil_iff]
  split
  · exact applyObscoreStub_ne_nil cfg schemas h
  · exact h

/-- C10: for every service or published data resource whose table set is
empty, getTablesetForService returns a tableset containing exactly one
schema element named "default"; and the returned tableset element is
never empty. -/
theorem C10_empty_tableset_default (cfg : Config) (src : TablesetSource) (sb : Bool) :
    (tablesetTables src = [] →
      getTablesetForService cfg src sb
        = Stan.elem "vs:tableset" []
            [Stan.elem "vs:schema" [] [Stan.elem "vs:name" [] [Stan.text "default"]]])
    ∧ (getTablesetForService cfg src sb).childrenOf ≠ [] := by
  constructor
  · intro h
    simp [getTablesetForService, h]
  · unfold getTablesetForService
    dsimp only
    split
    · simp [Stan.childrenOf]
    · next hne =>
        apply tablesetForSchemaCollection_children_ne_nil
        apply groupSchemas_ne_nil
        simpa [List.isEmpty_iff] using hne

/-- C10 witness: a service with no tables gets exactly the default
schema. -/
theorem C10_empty_tableset_default_witness :
    tablesetTables (.service ([] : List TableDef)) = []
    ∧ getTablesetForService testConfig (.service []) false
        = Stan.elem "vs:tableset" []
            [Stan.elem "vs:schema" [] [Stan.elem "vs:name" [] [Stan.text "default"]]] :=
  ⟨rfl, (C10_empty_tableset_default testConfig (.service []) false).1 rfl⟩

/-- C5 counterexample: a resource record (an organisation) without any
Publication still yields a resources row, a sets row and a subjects row,
so the published-record projection of a publication-free resource is not
always empty. -/
theorem C5_counterexample :
    (iterResRecs testEnv orgResRec false).1 = []
    ∧ ((iterResRecs testEnv orgResRec false).2.toOption.getD []) ≠ []
    ∧ orgResRec.publications = [] := by
  refine ⟨rfl, ?_, rfl⟩
  decide

/-- C5 (amended): for every service resource with no Publications, the
service-record projection iterSvcRecs yields nothing at all -- no
resource, interface or set row, no warning, no error. -/
theorem C5_no_publications_no_rows (env : Env) (res : Resob) (kt : Bool)
    (h : res.publications = []) :
    iterSvcRecs env res kt = ([], .ok []) := by
  simp [iterSvcRecs, h]

/-- C5 witness: the projection of a concrete publication-free service is
empty. -/
theorem C5_no_publications_no_rows_witness :
    noPubSvc.publications = [] ∧ iterSvcRecs testEnv noPubSvc false = ([], .ok []) :=
  ⟨rfl, C5_no_publications_no_rows testEnv noPubSvc false rfl⟩

/-- C9 counterexample: a resource whose authority x-unregistred is not
managed, but which has an ivo_managed publication and no i-am-sure
waiver, is not skipped with a warning -- makeBaseRecord raises a
ReportableError that iterSvcRecs surfaces to its caller. -/
theorem C9_counterexample :
    testEnv.managedAuthorities.contains
        (urlparseModel "ivo://x-unregistred/svc1").netloc = false
    ∧ iterSvcRecs testEnv xUnregSvc false
        = ([], .error (.reportable
            ("Resource test/rd2#svc1 uses the authority x-unregistered;"
             ++ " this is not permitted."))) := by
  constructor
  · decide
  · rfl

/-- C9 (amended): for every resource with at least one publication,
valid structure, a buildable VOResource element and an identifier whose
authority is neither managed nor the x-unregistred pseudo authority, the
record projection yields no rows, reports exactly the skip warning, and
surfaces no error. -/
theorem C9_unmanaged_authority_skipped (env : Env) (res : Resob) (kt : Bool)
    (ivoid : String)
    (hpub : res.publications ≠ [])
    (hvalid : res.validStructure = true)
    (hbuild : (getVOResourceElementPlain env res defaultSetNames).isOk = true)
    (hid : getMetaText res.meta "identifier" = some ivoid)
    (hxu : (urlparseModel ivoid).netloc ≠ "x-unregistred")
    (hunman : env.managedAuthorities.contains (urlparseModel ivoid).netloc = false) :
    iterSvcRecs env res kt
      = (["Skipping publication of resource with identifier " ++ ivoid
          ++ " because we don't manage its authority"], .ok []) := by
  have hne : res.publications.isEmpty = false := by
    simpa [List.isEmpty_iff] using hpub
  have hmbr : makeBaseRecord env res kt
      = (["Skipping publication of resource with identifier " ++ ivoid
          ++ " because we don't manage its authority"],
         .error (.skipThis "Resource from non-managed authority")) := by
    unfold makeBaseRecord
    rw [hvalid]
    rw [if_neg (by simp)]
    cases hb : getVOResourceElementPlain env res defaultSetNames with
    | error e => rw [hb] at hbuild; simp [Except.isOk, Except.toBool] at hbuild
    | ok doc =>
        dsimp only
        rw [hid]
        dsimp only
        rw [if_neg (by intro hc; exact hxu hc.1)]
        rw [if_pos (by simpa using hunman)]
  unfold iterSvcRecs
  rw [hne, hmbr]
  rfl

/-- C9 witness: a concrete service of an unmanaged ordinary authority is
skipped with exactly the warning. -/
theorem C9_unmanaged_authority_skipped_witness :
    iterSvcRecs testEnv unmanagedSvc false
      = (["Skipping publication of resource with identifier ivo://other.auth/svc2"
          ++ " because we don't manage its authority"], .ok []) :=
  C9_unmanaged_authority_skipped testEnv unmanagedSvc false "ivo://other.auth/svc2"
    (by simp [unmanagedSvc]) rfl (by rfl) rfl (by decide) (by decide)

/-- C4: for a non-auxiliary publication, the interface resolver always
yields a handler -- the registered one, or the designated
InterfaceWithParams default when the mechanism key is unregistered --
whereas the capability resolver has no default: an unregistered
mechanism key makes getCapabilityElement raise the ReportableError for
that publication. -/
theorem C4_interface_default_capability_fatal (cfg : Config) (pub : Publication)
    (h : pub.auxiliary = false) :
    (alookup pub.render interfaceMakerAssoc = none →
       interfaceMakerFor pub.render = IMaker.withParams)
    ∧ (∀ m, alookup pub.render interfaceMakerAssoc = some m →
         interfaceMakerFor pub.render = m)
    ∧ (alookup pub.render capabilityMakerAssoc = none →
         getCapabilityElement cfg pub
           = .error (.reportable
               ("Do not know how to produce a capability for the "
                ++ pub.render ++ " renderer"))) := by
  refine ⟨?_, ?_, ?_⟩
  · intro hn; simp [interfaceMakerFor, hn]
  · intro m hm; simp [interfaceMakerFor, hm]
  · intro hn
    simp [getCapabilityElement, h, hn]

/-- C4 witness: a publication on the unregistered wowrender mechanism
gets the default interface maker and a fatal capability error. -/
theorem C4_interface_default_capability_fatal_witness :
    interfaceMakerFor unknownRenderPub.render = IMaker.withParams
    ∧ getCapabilityElement testConfig unknownRenderPub
        = .error (.reportable
            ("Do not know how to produce a capability for the "
             ++ unknownRenderPub.render ++ " renderer")) :=
  ⟨(C4_interface_default_capability_fatal testConfig unknownRenderPub rfl).1 rfl,
   (C4_interface_default_capability_fatal testConfig unknownRenderPub rfl).2.2 rfl⟩

theorem dcListRecordsAux_spec (mk : Resob → List String → Except RegError Stan)
    (ns : List String) (rs : List Resob) :
    dcListRecordsAux mk ns rs
      = (rs.filterMap (fun r => (mk r ns).toOption),
         rs.filterMap (fun r =>
           match mk r ns with
           | .ok _ => none
           | .error e => some (listRecordErrorReport r e))) := by
  induction rs with
  | nil => rfl
  | cons r rest ih =>
      simp only [dcListRecordsAux, ih, List.filterMap_cons]
      cases h : mk r ns <;> simp [Except.toOption, h]

/-- C2: list-record assembly isolates per-record failures -- for any
record maker and any resource sequence, the returned list element holds
exactly the records that could be built, in order; every failing record
is dropped and produces one error-sink report; and the list build is a
total function (no exception escapes it).  The VOResource variant is the
same assembly over the VOResource record maker. -/
theorem C2_list_records_isolation (mk : Resob → List String → Except RegError Stan)
    (env : Env) (resobs : List Resob) (setNames : List String) :
    (getDCListRecordsElement mk resobs setNames).1
      = Stan.elem "oai:ListRecords" []
          (resobs.filterMap (fun r => (mk r setNames).toOption))
    ∧ (getDCListRecordsElement mk resobs setNames).2
      = resobs.filterMap (fun r =>
          match mk r setNames with
          | .ok _ => none
          | .error e => some (listRecordErrorReport r e))
    ∧ getVOListRecordsElement env resobs setNames
      = getDCListRecordsElement (fun r ns => getVOResourceElementPlain env r ns)
          resobs setNames := by
  refine ⟨?_, ?_, rfl⟩ <;> simp [getDCListRecordsElement, dcListRecordsAux_spec]

theorem stcResourceProfile_false_ok (parse : String → Except String Stan)
    (l : List String) :
    ∃ w r, stcResourceProfile parse false l = (w, .ok r) := by
  cases l with
  | nil => exact ⟨[], none, rfl⟩
  | cons v rest =>
      cases h : parse v with
      | ok p => exact ⟨[], some p, by simp [stcResourceProfile, h]⟩
      | error e =>
          exact ⟨["Coverage profile '" ++ v ++ "' bad while generating registry ("
                  ++ e ++ ").  It is left out."], none,
                 by simp [stcResourceProfile, h]⟩

theorem stcProfiles_false_ok (parse : String → Except String Stan) (l : List String) :
    ∃ w es, stcProfiles parse false l = (w, .ok es) := by
  induction l with
  | nil => exact ⟨[], [], rfl⟩
  | cons c rest ih =>
      obtain ⟨w1, r1, h1⟩ := stcResourceProfile_false_ok parse [c]
      obtain ⟨w2, es2, h2⟩ := ih
      cases r1 with
      | some x =>
          exact ⟨w1 ++ w2, [x] ++ es2, by simp [stcProfiles, h1, h2, Except.map]⟩
      | none =>
          exact ⟨w1 ++ w2, es2, by simp [stcProfiles, h1, h2, Except.map]⟩

theorem coverageValueChildren_false_ok (env : Env) (res : Resob) (v : MetaValue) :
    ∃ w es, coverageValueChildren env false res v = (w, .ok es) := by
  obtain ⟨w, ps, h⟩ := stcProfiles_false_ok env.parseSTCS (metaContents v.childMeta "profile")
  unfold coverageValueChildren
  rw [h]
  exact ⟨w, _, rfl⟩

theorem coverageMetaBuildAux_false_ok (env : Env) (res : Resob) (vs : List MetaValue) :
    ∃ w es, coverageMetaBuildAux env false res vs = (w, .ok es) := by
  induction vs with
  | nil => exact ⟨[], [], rfl⟩
  | cons v rest ih =>
      obtain ⟨w1, kids, h1⟩ := coverageValueChildren_false_ok env res v
      obtain ⟨w2, es2, h2⟩ := ih
      exact ⟨w1 ++ w2, groupElem "vs:coverage" kids ++ es2,
        by simp [coverageMetaBuildAux, h1, h2]⟩

theorem coverageMetaBuild_ok (env : Env) (res : Resob) :
    coverageMetaBuild env VALIDATING res
      = ((coverageMetaBuild env VALIDATING res).1, .ok (covElemsOf env res)) := by
  obtain ⟨w, es, h⟩ :=
    coverageMetaBuildAux_false_ok env res (metaAll res.meta "coverage")
  have hb : coverageMetaBuild env VALIDATING res = (w, .ok es) := h
  rw [hb]
  simp [covElemsOf, hb]

/-- C8: an unparseable coverage-profile value is reported and the
substructure omitted in lenient (non-validating) mode, while the rest of
the document still builds (the enclosing coverage build cannot fail in
the shipped lenient mode); in validating mode the parse error propagates
and aborts the build. -/
theorem C8_coverage_profile_modes (parse : String → Except String Stan)
    (v : String) (rest : List String) (e : String) (env : Env) (res : Resob)
    (h : parse v = .error e) :
    stcResourceProfile parse false (v :: rest)
      = (["Coverage profile '" ++ v ++ "' bad while generating registry ("
          ++ e ++ ").  It is left out."], .ok none)
    ∧ stcResourceProfile parse true (v :: rest) = ([], .error e)
    ∧ coverageMetaBuild env VALIDATING res
        = ((coverageMetaBuild env VALIDATING res).1, .ok (covElemsOf env res)) :=
  ⟨by simp [stcResourceProfile, h], by simp [stcResourceProfile, h],
   coverageMetaBuild_ok env res⟩

/-- C8 witness: the rejecting test parser triggers the lenient report on
a concrete profile value. -/
theorem C8_coverage_profile_modes_witness :
    stcResourceProfile testEnv.parseSTCS false ["Position FOO 1 2"]
      = (["Coverage profile 'Position FOO 1 2' bad while generating registry ("
          ++ "cannot parse Position FOO 1 2" ++ ").  It is left out."], .ok none)
    ∧ stcResourceProfile testEnv.parseSTCS true ["Position FOO 1 2"]
      = ([], .error "cannot parse Position FOO 1 2") := by
  have h := C8_coverage_profile_modes testEnv.parseSTCS "Position FOO 1 2" []
    "cannot parse Position FOO 1 2" testEnv orgResRec rfl
  exact ⟨h.1, h.2.1⟩

theorem makeServiceResourceWith_fst (x : Option String) (env : Env) (res : Resob)
    (ns : List String) (c c' : DepCache) :
    (makeServiceResourceWith x env c res ns).1
      = (makeServiceResourceWith x env c' res ns).1 := by
  unfold makeServiceResourceWith
  cases capabilityElementsFor env res ns <;> rfl

theorem makeDataServiceResourceWith_fst (x : Option String) (env : Env) (res : Resob)
    (ns : List String) (c c' : DepCache) :
    (makeDataServiceResourceWith x env c res ns).1
      = (makeDataServiceResourceWith x env c' res ns).1 := by
  have h := makeServiceResourceWith_fst x env res ns c c'
  unfold makeDataServiceResourceWith
  cases h1 : makeServiceResourceWith x env c res ns with
  | mk a cc =>
  cases h2 : makeServiceResourceWith x env c' res ns with
  | mk a2 cc2 =>
  rw [h1, h2] at h
  dsimp at h
  subst h
  obtain ⟨w, r⟩ := a
  cases r with
  | error e => rfl
  | ok body =>
      cases coverageMetaBuild env VALIDATING res with
      | mk w2 cov => cases cov <;> rfl

theorem makeCatalogServiceResourceWith_fst (x : Option String) (env : Env) (res : Resob)
    (ns : List String) (c c' : DepCache) :
    (makeCatalogServiceResourceWith x env c res ns).1
      = (makeCatalogServiceResourceWith x env c' res ns).1 := by
  have h := makeDataServiceResourceWith_fst x env res ns c c'
  unfold makeCatalogServiceResourceWith
  cases h1 : makeDataServiceResourceWith x env c res ns with
  | mk a cc =>
  cases h2 : makeDataServiceResourceWith x env c' res ns with
  | mk a2 cc2 =>
  rw [h1, h2] at h
  dsimp at h
  subst h
  obtain ⟨w, r⟩ := a
  cases r <;> rfl

theorem makeRegistryResource_fst (env : Env) (res : Resob) (ns : List String)
    (c c' : DepCache) :
    (makeRegistryResource env c res ns).1 = (makeRegistryResource env c' res ns).1 := by
  have h := makeServiceResourceWith_fst (some "vg:Registry") env res ns c c'
  unfold makeRegistryResource
  cases h1 : makeServiceResourceWith (some "vg:Registry") env c res ns with
  | mk a cc =>
  cases h2 : makeServiceResourceWith (some "vg:Registry") env c' res ns with
  | mk a2 cc2 =>
  rw [h1, h2] at h
  dsimp at h
  subst h
  obtain ⟨w, r⟩ := a
  cases r <;> rfl

theorem makeDataCollectionResource_fst (env : Env) (res : Resob) (ns : List String)
    (schemas : List (RDInfo × List TableDef)) (c c' : DepCache) :
    (makeDataCollectionResource env c res ns schemas).1
      = (makeDataCollectionResource env c' res ns schemas).1 := by
  unfold makeDataCollectionResource
  cases capabilityElementsFor env res ns with
  | error e => rfl
  | ok caps =>
      cases coverageMetaBuild env VALIDATING res with
      | mk w2 cov => cases cov <;> rfl

theorem getVORMetadataElement_fst (env : Env) (res : Resob) (ns : List String)
    (c c' : DepCache) :
    (getVORMetadataElement env c res ns).1 = (getVORMetadataElement env c' res ns).1 := by
  unfold getVORMetadataElement
  split
  · exact makeServiceResourceWith_fst _ env res ns c c'
  · exact makeDataServiceResourceWith_fst _ env res ns c c'
  · exact makeCatalogServiceResourceWith_fst _ env res ns c c'
  · exact makeRegistryResource_fst env res ns c c'
  · rfl
  · rfl
  · rfl
  · exact makeCatalogServiceResourceWith_fst _ env res ns c c'
  · rfl
  · exact makeDataCollectionResource_fst env res ns _ c c'
  · exact makeDataCollectionResource_fst env res ns _ c c'
  · rfl

theorem getVOResourceElement_fst (env : Env) (res : Resob) (ns : List String)
    (c c' : DepCache) :
    (getVOResourceElement env c res ns).1 = (getVOResourceElement env c' res ns).1 := by
  have h := getVORMetadataElement_fst env res ns c c'
  unfold getVOResourceElement
  cases h1 : getVORMetadataElement env c res ns with
  | mk a cc =>
  cases h2 : getVORMetadataElement env c' res ns with
  | mk a2 cc2 =>
  rw [h1, h2] at h
  dsimp at h
  subst h
  obtain ⟨w, r⟩ := a
  cases r <;> rfl

/-- C7: building the same resource and set-name input twice with an
unchanged meta source and process configuration yields identical results
(warnings and tree); the only state between the two runs, the
prerequisite-dependency cache the first run may populate, has no bearing
on the produced document. -/
theorem C7_build_deterministic (env : Env) (res : Resob) (setNames : List String)
    (cache0 : DepCache) :
    (getVOResourceElement env cache0 res setNames).1
      = (getVOResourceElement env
          ((getVOResourceElement env cache0 res setNames).2) res setNames).1 :=
  getVOResourceElement_fst env res setNames cache0 _

theorem stanAppend_append (s : Stan) (x y : List Stan) :
    stanAppend (stanAppend s x) y = stanAppend s (x ++ y) := by
  cases s <;> simp [stanAppend]

/-- C6: the document a catalog-service resource gets is the generic
service document (base attributes, curation and content from the
model-based builder, rights block, one capability per eligible
publication) with the organisation and coverage metadata and the
table-set substructure appended after it; the appended children extend,
and never replace or remove, the service-level children. -/
theorem C6_catalog_extends_service (env : Env) (cache : DepCache) (res : Resob)
    (setNames w : List String) (c : DepCache) (svcDoc : Stan)
    (hres : getResType res = "catalogService")
    (hsvc : makeServiceResourceWith (some "vs:CatalogService") env cache res setNames
            = ((w, .ok [svcDoc]), c)) :
    getVORMetadataElement env cache res setNames
      = ((w ++ (coverageMetaBuild env VALIDATING res).1,
          .ok [stanAppend svcDoc
            (orgMetaBuild res.meta ++ covElemsOf env res
             ++ [getTablesetForService env.cfg (.service res.tables) false])]), c)
    ∧ (stanAppend svcDoc
        (orgMetaBuild res.meta ++ covElemsOf env res
         ++ [getTablesetForService env.cfg (.service res.tables) false])).childrenOf
       = svcDoc.childrenOf ++ (orgMetaBuild res.meta ++ covElemsOf env res
         ++ [getTablesetForService env.cfg (.service res.tables) false]) := by
  have hdoc : ∃ t a kids, svcDoc = Stan.elem t a kids := by
    have hsvc2 := hsvc
    unfold makeServiceResourceWith at hsvc2
    cases hcap : capabilityElementsFor env res setNames with
    | error e => rw [hcap] at hsvc2; simp at hsvc2
    | ok caps =>
        rw [hcap] at hsvc2
        have h2 := congrArg (fun p => p.1.2) hsvc2
        dsimp at h2
        simp only [Except.ok.injEq, List.cons.injEq, and_true] at h2
        rw [← h2]
        exact ⟨"ri:Resource", resourceBaseAttrs res (some "vs:CatalogService"), _, rfl⟩
  constructor
  · have hdisp : getVORMetadataElement env cache res setNames
        = makeCatalogServiceResourceWith (some "vs:CatalogService") env cache res setNames := by
      unfold getVORMetadataElement
      rw [hres]
      rfl
    rw [hdisp]
    unfold makeCatalogServiceResourceWith makeDataServiceResourceWith
    rw [hsvc]
    dsimp only
    rw [coverageMetaBuild_ok env res]
    simp [stanAppend_append]
  · obtain ⟨t, a, kids, hd⟩ := hdoc
    subst hd
    simp [stanAppend, Stan.childrenOf]

/-- C6 witness: for the concrete catalog fixture the catalog document is
the generic service document with the tableset appended. -/
theorem C6_catalog_extends_service_witness :
    getVORMetadataElement testEnv [] catSvc defaultSetNames
      = (([] ++ (coverageMetaBuild testEnv VALIDATING catSvc).1,
          .ok [stanAppend c6svcDoc
            (orgMetaBuild catSvc.meta ++ covElemsOf testEnv catSvc
             ++ [getTablesetForService testEnv.cfg (.service catSvc.tables) false])]),
         c6cache)
    ∧ (stanAppend c6svcDoc
        (orgMetaBuild catSvc.meta ++ covElemsOf testEnv catSvc
         ++ [getTablesetForService testEnv.cfg (.service catSvc.tables) false])).childrenOf
       = c6svcDoc.childrenOf ++ (orgMetaBuild catSvc.meta ++ covElemsOf testEnv catSvc
         ++ [getTablesetForService testEnv.cfg (.service catSvc.tables) false]) :=
  C6_catalog_extends_service testEnv [] catSvc defaultSetNames [] c6cache c6svcDoc
    rfl rfl

/-- C1: for an auxiliary publication whose mechanism key resolves to a
capability maker, getCapabilityElement yields no capability when that
maker declares no auxiliaryId; when it declares one, it yields exactly
one capability node, built by the plain base maker (description plus
interface, nothing protocol-specific), whose children are exactly the
minimal capability content and whose standardID attribute is the
declared auxiliaryId. -/
theorem C1_auxiliary_capability (cfg : Config) (pub : Publication) (m : CMaker)
    (haux : pub.auxiliary = true)
    (hm : alookup pub.render capabilityMakerAssoc = some m) :
    (auxiliaryIdOf m = none → getCapabilityElement cfg pub = .ok none)
    ∧ (∀ aid cap, auxiliaryIdOf m = some aid → aid ≠ "" →
        makeCapabilityBase "vr:capability" [] cfg pub = .ok cap →
        getCapabilityElement cfg pub = .ok (some (stanSetAttr cap "standardID" aid))
        ∧ (stanSetAttr cap "standardID" aid).childrenOf = cap.childrenOf
        ∧ (stanSetAttr cap "standardID" aid).attr "standardID" = some aid) := by
  have hce : getCapabilityElement cfg pub = getAuxiliaryCapability cfg pub := by
    simp [getCapabilityElement, haux]
  constructor
  · intro hn
    rw [hce]
    simp [getAuxiliaryCapability, hm, hn]
  · intro aid cap ha hne hbase
    refine ⟨?_, ?_, ?_⟩
    · rw [hce]
      simp [getAuxiliaryCapability, hm, ha, hne, hbase, Except.map]
    · unfold makeCapabilityBase at hbase
      cases hi : getInterfaceElement cfg pub with
      | error e => rw [hi] at hbase; simp at hbase
      | ok i =>
          rw [hi] at hbase
          simp only [Except.ok.injEq] at hbase
          rw [← hbase]
          rfl
    · unfold makeCapabilityBase at hbase
      cases hi : getInterfaceElement cfg pub with
      | error e => rw [hi] at hbase; simp at hbase
      | ok i =>
          rw [hi] at hbase
          simp only [Except.ok.injEq] at hbase
          rw [← hbase]
          rfl

/-- C1 witness: the auxiliary SIAP publication yields exactly the
standardID-tagged minimal capability, and the auxiliary form
publication (no auxiliaryId) yields none. -/
theorem C1_auxiliary_capability_witness :
    getCapabilityElement testConfig auxSiapPub
      = .ok (some (stanSetAttr c1cap "standardID" "ivo://ivoa.net/std/SIA#aux"))
    ∧ (stanSetAttr c1cap "standardID" "ivo://ivoa.net/std/SIA#aux").childrenOf
        = c1cap.childrenOf
    ∧ getCapabilityElement testConfig auxFormPub = .ok none := by
  have h := (C1_auxiliary_capability testConfig auxSiapPub .sia rfl rfl).2
      "ivo://ivoa.net/std/SIA#aux" c1cap rfl (by decide) rfl
  exact ⟨h.1, h.2.1,
    (C1_auxiliary_capability testConfig auxFormPub .formC rfl rfl).1 rfl⟩

theorem switchProtocolChars_ok_ne (cs ds : List Char)
    (h : switchProtocolChars cs = .ok ds) : ds ≠ cs := by
  unfold switchProtocolChars at h
  split at h
  · injection h with h
    subst h
    intro heq
    have hl := congrArg List.length heq
    simp only [List.length_cons] at hl
    omega
  · injection h with h
    subst h
    intro heq
    have hl := congrArg List.length heq
    simp only [List.length_cons] at hl
    omega
  · exact absurd h (by simp)

theorem switchProtocol_ok_ne (u v : String) (h : switchProtocol u = .ok v) : v ≠ u := by
  unfold switchProtocol at h
  cases hc : switchProtocolChars u.data with
  | error e => rw [hc] at h; simp [Except.map] at h
  | ok ds =>
      rw [hc] at h
      simp only [Except.map, Except.ok.injEq] at h
      intro hvu
      apply switchProtocolChars_ok_ne u.data ds hc
      have : (String.mk ds).data = u.data := by rw [h, hvu]
      simpa using this

theorem mirrorValues_of_all_nonmirror (l : List Stan)
    (h : ∀ s ∈ l, (s.tagOf == "vr:mirrorURL") = false) :
    mirrorValuesOfKids l = [] := by
  induction l with
  | nil => rfl
  | cons s rest ih =>
      have hs := h s (by simp)
      simp only [mirrorValuesOfKids, List.filterMap_cons, hs, Bool.false_eq_true, if_false]
      exact ih (fun x hx => h x (by simp [hx]))

theorem mirrorValues_inputParams (pub : Publication) :
    mirrorValuesOfKids (getInputParams pub) = [] := by
  unfold getInputParams
  cases pub.inputKeys with
  | none => rfl
  | some ks =>
      induction ks with
      | nil => rfl
      | cons k rest ih => exact ih

theorem mirrorValues_withParamsExtras (pub : Publication) :
    mirrorValuesOfKids
      ([Stan.elem "vs:queryType" [] (optText (getMetaText pub.meta "requestMethod")),
        Stan.elem "vs:resultType" [] (optText (getMetaText pub.meta "resultType"))]
       ++ getInputParams pub) = [] :=
  mirrorValues_inputParams pub

theorem mirrorValues_daliEndpoints : mirrorValuesOfKids daliEndpoints = [] := by
  rfl

theorem accessURLValue_base (cfg : Config) (pub : Publication) (aU : String)
    (extras : List Stan) :
    accessURLValueOfKids (interfaceBaseChildren cfg pub aU ++ extras) = some aU := by
  rfl

theorem not_mem_mirrorValues_base (cfg : Config) (pub : Publication) (aU : String)
    (extras : List Stan) (hext : mirrorValuesOfKids extras = []) :
    aU ∉ mirrorValuesOfKids (interfaceBaseChildren cfg pub aU ++ extras) := by
  intro hmem
  unfold mirrorValuesOfKids at hmem
  rw [List.filterMap_append] at hmem
  rcases List.mem_append.mp hmem with hbase | hextm
  · have hbase' : aU ∈ List.filterMap
        (fun c => if (c.tagOf == "vr:mirrorURL") = true then firstText c.childrenOf else none)
        ((((metaContents pub.meta "mirrorURL").filter (fun v => v != aU)).map
            (fun v => Stan.elem "vr:mirrorURL" [] [Stan.text v]))
         ++ (if cfg.registerAlternative then
               match switchProtocol aU with
               | .ok alt => [Stan.elem "vr:mirrorURL" [] [Stan.text alt]]
               | .error _ => []
             else [])) := hbase
    rw [List.filterMap_append] at hbase'
    rcases List.mem_append.mp hbase' with hmir | halt
    · rw [List.mem_filterMap] at hmir
      obtain ⟨c, hcmem, hfc⟩ := hmir
      rw [List.mem_map] at hcmem
      obtain ⟨v, hvmem, rfl⟩ := hcmem
      simp only [Stan.tagOf,
        show (("vr:mirrorURL" : String) == "vr:mirrorURL") = true from rfl,
        if_true, firstText, Stan.childrenOf, Option.some.injEq] at hfc
      subst hfc
      have := (List.mem_filter.mp hvmem).2
      simp at this
    · by_cases hra : cfg.registerAlternative
      · rw [if_pos hra] at halt
        cases hsp : switchProtocol aU with
        | error e => rw [hsp] at halt; simp at halt
        | ok alt =>
            rw [hsp] at halt
            rw [List.mem_filterMap] at halt
            obtain ⟨c, hcmem, hfc⟩ := halt
            simp only [List.mem_singleton] at hcmem
            subst hcmem
            simp only [Stan.tagOf,
              show (("vr:mirrorURL" : String) == "vr:mirrorURL") = true from rfl,
              if_true, firstText, Stan.childrenOf, Option.some.injEq] at hfc
            exact switchProtocol_ok_ne aU alt hsp hfc
      · rw [if_neg hra] at halt
        simp at halt
  · have hx : aU ∈ mirrorValuesOfKids extras := hextm
    rw [hext] at hx
    simp at hx

theorem runIMaker_shape (m : IMaker) (cfg : Config) (pub : Publication) (iface : Stan)
    (h : runIMaker m cfg pub = .ok iface) :
    ∃ a0 extras, getMetaText pub.meta "accessURL" = some a0
      ∧ iface.childrenOf
          = interfaceBaseChildren cfg pub (rewriteAccessURL cfg a0) ++ extras
      ∧ mirrorValuesOfKids extras = [] := by
  cases hm : getMetaText pub.meta "accessURL" with
  | none =>
      exfalso
      cases m <;>
        simp [runIMaker, runIWithParams, interfaceBase, hm, bind, Except.bind,
          Except.map] at h
  | some a0 =>
      refine ⟨a0, ?_⟩
      cases m
      all_goals first
      | (simp only [runIMaker] at h
         unfold interfaceBase at h
         rw [hm] at h
         simp only [Except.ok.injEq] at h
         subst h
         exact ⟨[], rfl, by simp [Stan.childrenOf], rfl⟩)
      | (simp only [runIMaker] at h
         unfold interfaceBase at h
         rw [hm] at h
         simp only [Except.map, Except.ok.injEq] at h
         subst h
         exact ⟨[], rfl, by simp [stanSetAttr, Stan.childrenOf], rfl⟩)
      | (simp only [runIMaker] at h
         unfold runIWithParams interfaceBase at h
         rw [hm] at h
         simp only [bind, Except.bind, Except.ok.injEq] at h
         subst h
         exact ⟨[Stan.elem "vs:queryType" [] (optText (getMetaText pub.meta "requestMethod")),
                 Stan.elem "vs:resultType" [] (optText (getMetaText pub.meta "resultType"))]
                ++ getInputParams pub,
                rfl, by simp [stanAppend, Stan.childrenOf],
                mirrorValues_withParamsExtras pub⟩)
      | (simp only [runIMaker] at h
         unfold interfaceBase at h
         rw [hm] at h
         simp only [bind, Except.bind] at h
         split at h
         · simp at h
         · simp only [Except.ok.injEq] at h
           subst h
           exact ⟨daliEndpoints, rfl,
                  by simp [stanAppend, stanSetAttr, Stan.childrenOf],
                  mirrorValues_daliEndpoints⟩)
      | (simp only [runIMaker] at h
         unfold interfaceBase at h
         rw [hm] at h
         simp only [bind, Except.bind, Except.ok.injEq] at h
         subst h
         exact ⟨[Stan.elem "vr:wsdlURL" [] [Stan.text (a0 ++ "?wsdl")]], rfl,
                by simp [stanAppend, Stan.childrenOf], rfl⟩)

/-- C3: the mirror-URL values of every interface element produced by any
interface maker never contain the interface's own primary access URL
(the one left after the short-alias rewrite); the optional
protocol-switch mirror always differs from it by construction. -/
theorem C3_no_mirror_equals_access (m : IMaker) (cfg : Config) (pub : Publication)
    (iface : Stan) (u : String)
    (hrun : runIMaker m cfg pub = .ok iface)
    (hacc : primaryAccessURL iface = some u) :
    u ∉ mirrorURLValues iface := by
  obtain ⟨a0, extras, hm, hkids, hext⟩ := runIMaker_shape m cfg pub iface hrun
  unfold primaryAccessURL at hacc
  rw [hkids, accessURLValue_base] at hacc
  simp only [Option.some.injEq] at hacc
  subst hacc
  unfold mirrorURLValues
  rw [hkids]
  exact not_mem_mirrorValues_base cfg pub _ extras hext

/-- C3 witness: the concrete form interface drops the mirror equal to
its access URL and keeps only the distinct mirror and the
protocol-switch mirror. -/
theorem C3_no_mirror_equals_access_witness :
    primaryAccessURL c3iface = some "http://example.org/svc/form"
    ∧ "http://example.org/svc/form" ∉ mirrorURLValues c3iface :=
  ⟨rfl, C3_no_mirror_equals_access .form testConfig mirrorFormPub c3iface
     "http://example.org/svc/form" rfl rfl⟩

end DaCHS
